import Mathlib

/-!
Verification development for the docstring-to-ahelp conversion pipeline.

The Python sources embedded here are `parsers/docutils.py` (the document-tree
transformation engine) and the batch loop of `doc2ahelp.py`.  Docutils nodes
are modelled as a nested inductive (`Node`), ElementTree elements as `XElem`,
Python exceptions as `Except PyErr` (with `PyErr.exc` for ordinary
`Exception` subclasses - ValueError, AssertionError, IndexError, KeyError,
TypeError, AttributeError - and `PyErr.exit` for `SystemExit` raised by
`sys.exit`, which `except Exception` does NOT catch).

Python string primitives (`strip`, `lower`, `split`, `startswith`,
`endswith`, `sorted`) are re-implemented over `List Char` so that they
evaluate by `rfl`; `sorted` uses code-point lexicographic order, matching
the CPython string ordering.  The docutils built-in `astext` method is
modelled as `Node.rawtext` (concatenation of all text leaves; docutils
joins inline children of text elements with the empty separator, which is
the case exercised everywhere the engine calls the built-in method).
-/

/-- Docutils document node: either a text leaf (tagname `#text`) or an
element with a tag, attributes and ordered children. -/
inductive Node where
  | text (s : String)
  | elem (tag : String) (attrs : List (String × String)) (children : List Node)
deriving Repr

def Node.tagname : Node → String
  | .text _ => "#text"
  | .elem t _ _ => t

def Node.childNodes : Node → List Node
  | .text _ => []
  | .elem _ _ cs => cs

def Node.attrs : Node → List (String × String)
  | .text _ => []
  | .elem _ a _ => a

/-- Docutils `node.get(key)`: attribute lookup. -/
def Node.get (n : Node) (k : String) : Option String :=
  n.attrs.lookup k

mutual
/-- The docutils built-in `astext` method: concatenation of all `#text`
descendants (empty child separator, the text-element case). -/
def Node.rawtext : Node → String
  | .text s => s
  | .elem _ _ cs => rawtextList cs

def rawtextList : List Node → String
  | [] => ""
  | c :: cs => c.rawtext ++ rawtextList cs
end

/-- ElementTree element: tag, attribute list, text, tail, children. -/
inductive XElem where
  | mk (tag : String) (attrs : List (String × String)) (text : String)
       (tail : String) (children : List XElem)
deriving Repr

def XElem.tag : XElem → String
  | .mk t _ _ _ _ => t

def XElem.attrs : XElem → List (String × String)
  | .mk _ a _ _ _ => a

def XElem.text : XElem → String
  | .mk _ _ tx _ _ => tx

def XElem.children : XElem → List XElem
  | .mk _ _ _ _ cs => cs

/-- Build an element carrying only text (ElementTree element with `.text`). -/
def elT (tag text : String) : XElem := .mk tag [] text "" []

/-- Build an element carrying only children. -/
def elC (tag : String) (cs : List XElem) : XElem := .mk tag [] "" "" cs

/-- Build an element with attributes and children. -/
def elA (tag : String) (attrs : List (String × String)) (cs : List XElem) : XElem :=
  .mk tag attrs "" "" cs

def setAssocStr (xs : List (String × String)) (k v : String) : List (String × String) :=
  match xs with
  | [] => [(k, v)]
  | (k1, v1) :: rest => if k1 = k then (k, v) :: rest else (k1, v1) :: setAssocStr rest k v

/-- ElementTree `el.set(key, value)`. -/
def XElem.setAttr (x : XElem) (k v : String) : XElem :=
  match x with
  | .mk t a tx tl cs => .mk t (setAssocStr a k v) tx tl cs

/-- ElementTree `el.append(..)` repeated: add children at the end. -/
def XElem.appendChildren (x : XElem) (new : List XElem) : XElem :=
  match x with
  | .mk t a tx tl cs => .mk t a tx tl (cs ++ new)

/-- Python exception model: `exc` for ordinary `Exception` subclasses,
`exit` for `SystemExit` (raised by `sys.exit`, not caught by
`except Exception`). -/
inductive PyErr where
  | exc (msg : String)
  | exit (code : Nat)
deriving Repr, DecidableEq

/-! ## Python string primitives over `List Char` -/

/-- Python `str.strip()`. -/
def pyStrip (s : String) : String :=
  String.mk (((s.data.dropWhile Char.isWhitespace).reverse.dropWhile Char.isWhitespace).reverse)

/-- Python `str.lower()` (ASCII case folding, which covers the corpus). -/
def pyLower (s : String) : String := String.mk (s.data.map Char.toLower)

/-- Python `str.upper()`. -/
def pyUpper (s : String) : String := String.mk (s.data.map Char.toUpper)

/-- Python `s.startswith(pre)`. -/
def pyStarts (s pre : String) : Bool := pre.data.isPrefixOf s.data

/-- Python `s.endswith(suf)`. -/
def pyEnds (s suf : String) : Bool := suf.data.isSuffixOf s.data

def splitWSGo (cur : List Char) : List Char → List String
  | [] => if cur.isEmpty then [] else [String.mk cur.reverse]
  | c :: cs =>
    if c.isWhitespace then
      if cur.isEmpty then splitWSGo [] cs
      else String.mk cur.reverse :: splitWSGo [] cs
    else splitWSGo (c :: cur) cs

/-- Python `str.split()` with no argument: split on whitespace runs,
dropping empty tokens. -/
def pySplit (s : String) : List String := splitWSGo [] s.data

def splitCharGo (sep : Char) (cur : List Char) : List Char → List String
  | [] => [String.mk cur.reverse]
  | c :: cs =>
    if c = sep then String.mk cur.reverse :: splitCharGo sep [] cs
    else splitCharGo sep (c :: cur) cs

/-- Python `str.split(sep)` for a single-character separator (keeps empty
fragments, always returns at least one element). -/
def pySplitChar (sep : Char) (s : String) : List String := splitCharGo sep [] s.data

def splitSpace1Go (cur : List Char) : List Char → List String
  | [] => [String.mk cur.reverse]
  | c :: cs =>
    if c = ' ' then [String.mk cur.reverse, String.mk cs]
    else splitSpace1Go (c :: cur) cs

/-- Python str.split with a space separator and maxsplit one: split on the
first space only. -/
def splitSpace1 (s : String) : List String := splitSpace1Go [] s.data

def containsChars (pat : List Char) : List Char → Bool
  | [] => pat.isEmpty
  | c :: cs => pat.isPrefixOf (c :: cs) || containsChars pat cs

/-- Python `s.find(pat) != -1`, i.e. substring containment. -/
def containsStr (s pat : String) : Bool := containsChars pat.data s.data

def lexLe : List Char → List Char → Bool
  | [], _ => true
  | _ :: _, [] => false
  | a :: as, b :: bs => if a < b then true else if b < a then false else lexLe as bs

def lexLt : List Char → List Char → Bool
  | [], [] => false
  | [], _ :: _ => true
  | _ :: _, [] => false
  | a :: as, b :: bs => if a < b then true else if b < a then false else lexLt as bs

/-- The CPython le relation on strings: code-point lexicographic order. -/
def pyLe (a b : String) : Prop := lexLe a.data b.data = true

instance : DecidableRel pyLe := fun a b => by unfold pyLe; infer_instance

/-- Python `sorted(..)` on strings (insertion sort under `pyLe`;
the result is the unique `pyLe`-sorted arrangement). -/
def pySorted (xs : List String) : List String := List.insertionSort pyLe xs

def cleanStep (v : String) (c : Char) : String :=
  let d := v.data
  let d1 := if d.getLast? = some c then d.dropLast else d
  let d2 := match d1 with
            | x :: xs => if x = c then xs else d1
            | [] => d1
  String.mk d2

/-- The `clean` helper inside `find_synopsis`: for each of the characters
comma, period, colon, double and single quote (in order), drop one trailing
then one leading occurrence. -/
def cleanTok (v : String) : String :=
  [',', '.', ':', '\x22', '\x27'].foldl cleanStep v

/-! ## docutils.py: splitWhile, is_para, astext -/

/-- The `splitWhile` helper of `parsers/docutils.py`: elements pass while
the predicate holds; the rest (from the first failure) is returned intact. -/
def splitWhile (pred : Node → Bool) : List Node → List Node × List Node
  | [] => ([], [])
  | x :: xs =>
    if pred x then
      let r := splitWhile pred xs
      (x :: r.1, r.2)
    else ([], x :: xs)

/-- The `is_para` helper: tagname comparison against `paragraph`. -/
def is_para (node : Node) : Bool := node.tagname == "paragraph"

mutual
/-- The module-level `astext` function of `parsers/docutils.py` (the custom
flattener, not the docutils method): handles system_message, text,
reference, footnote (whose body must be a paragraph or enumerated_list,
else `ValueError`), footnote_reference, title_reference, literal, emphasis,
strong, and the containers paragraph / list_item / enumerated_list (children
flattened recursively and joined with single spaces); any other tag fails
the trailing assert. -/
def astext : Node → Except PyErr String
  | .text s => .ok s
  | .elem tag _ cs =>
    if tag = "system_message" then .ok ""
    else if tag = "reference" then .ok (rawtextList cs)
    else if tag = "footnote" then
      match cs with
      | c0 :: c1 :: _ =>
        if c0.tagname = "label" then
          let ctr := "[" ++ c0.rawtext ++ "]"
          if c1.tagname = "paragraph" then
            match astext c1 with
            | .error e => .error e
            | .ok cts => .ok (ctr ++ " " ++ cts)
          else if c1.tagname = "enumerated_list" then
            match astext c1 with
            | .error e => .error e
            | .ok cts => .ok (ctr ++ " " ++ cts)
          else .error (.exc ("Unexpected node " ++ c1.tagname))
        else .error (.exc "AssertionError: footnote label")
      | _ => .error (.exc "IndexError: footnote")
    else if tag = "footnote_reference" then .ok ("[" ++ rawtextList cs ++ "]")
    else if tag = "title_reference" then .ok ("\x60" ++ rawtextList cs ++ "\x60")
    else if tag = "literal" then .ok (rawtextList cs)
    else if tag = "emphasis" then .ok (rawtextList cs)
    else if tag = "strong" then .ok (rawtextList cs)
    else if tag = "paragraph" ∨ tag = "list_item" ∨ tag = "enumerated_list" then
      match astextList cs with
      | .error e => .error e
      | .ok parts => .ok (String.intercalate " " parts)
    else .error (.exc ("AssertionError: astext tag " ++ tag))

/-- Flatten each node of a list with `astext`, failing on the first error
(the Python list comprehension / loop over children). -/
def astextList : List Node → Except PyErr (List String)
  | [] => .ok []
  | n :: ns =>
    match astext n with
    | .error e => .error e
    | .ok t =>
      match astextList ns with
      | .error e => .error e
      | .ok ts => .ok (t :: ts)
end

/-! ## docutils.py: block converters -/

/-- The `make_syntax_block` helper: a SYNTAX element with one LINE child per
input line (the callers always pass a non-empty list, so the length assert
cannot fire). -/
def make_syntax_block (lines : List String) : XElem :=
  elC "SYNTAX" (lines.map (fun l => elT "LINE" l))

/-- The `convert_para` converter: a PARA element whose text is the
newline-join of the flattened children. -/
def convert_para (para : Node) : Except PyErr XElem :=
  match astextList para.childNodes with
  | .error e => .error e
  | .ok texts => .ok (elT "PARA" (String.intercalate "\n" texts))

/-- The `convert_doctest_block` converter: asserts the tag and the
`xml:space=preserve` marker, then emits a VERBATIM element. -/
def convert_doctest_block (para : Node) : Except PyErr XElem :=
  if para.tagname ≠ "doctest_block" then .error (.exc "AssertionError: doctest_block")
  else if para.get "xml:space" ≠ some "preserve" then
    .error (.exc "AssertionError: xml:space")
  else .ok (elT "VERBATIM" para.rawtext)

/-- The `convert_literal_block` converter: as `convert_doctest_block` but
for literal_block. -/
def convert_literal_block (para : Node) : Except PyErr XElem :=
  if para.tagname ≠ "literal_block" then .error (.exc "AssertionError: literal_block")
  else if para.get "xml:space" ≠ some "preserve" then
    .error (.exc "AssertionError: xml:space")
  else .ok (elT "VERBATIM" para.rawtext)

/-- The `convert_list_items` helper: a LIST element with one ITEM per
list_item child (asserting every child is a list_item). -/
def convert_list_items (para : Node) : Except PyErr XElem :=
  match para.childNodes.mapM (fun el =>
      if el.tagname ≠ "list_item" then Except.error (PyErr.exc "AssertionError: list_item")
      else match astext el with
           | .error e => .error e
           | .ok t => .ok (elT "ITEM" t)) with
  | .error e => .error e
  | .ok items => .ok (elC "LIST" items)

/-- The `convert_block_quote` converter: a sole bullet/enumerated list child
delegates to `convert_list_items`; all-doctest children join into one
VERBATIM (double newline separated); a sole paragraph child becomes a
VERBATIM of its flattened text; anything else raises ValueError.  An empty
block_quote hits the initial index access. -/
def convert_block_quote (para : Node) : Except PyErr XElem :=
  if para.tagname ≠ "block_quote" then .error (.exc "AssertionError: block_quote")
  else match para.childNodes with
  | [] => .error (.exc "IndexError: block_quote")
  | c0 :: rest =>
    if c0.tagname = "bullet_list" ∨ c0.tagname = "enumerated_list" then
      if rest.isEmpty then convert_list_items c0
      else .error (.exc "AssertionError: block_quote length")
    else if (c0 :: rest).all (fun p => p.tagname == "doctest_block") then
      .ok (elT "VERBATIM" (String.intercalate "\n\n" ((c0 :: rest).map Node.rawtext)))
    else if c0.tagname = "paragraph" then
      if rest.isEmpty then
        match astext c0 with
        | .error e => .error e
        | .ok t => .ok (elT "VERBATIM" t)
      else .error (.exc "AssertionError: block_quote length")
    else .error (.exc "Unexpected block_quote element")

/-- The `convert_enumerated_list` converter. -/
def convert_enumerated_list (para : Node) : Except PyErr XElem :=
  if para.tagname ≠ "enumerated_list" then .error (.exc "AssertionError: enumerated_list")
  else convert_list_items para

/-- The `convert_bullet_list` converter. -/
def convert_bullet_list (para : Node) : Except PyErr XElem :=
  if para.tagname ≠ "bullet_list" then .error (.exc "AssertionError: bullet_list")
  else convert_list_items para

/-- The `convert_definition_list` converter: one PARA per
definition_list_item, the term text as the title attribute and the sole
paragraph of the definition as the body (asserting the documented shape). -/
def convert_definition_list (para : Node) : Except PyErr (List XElem) :=
  if para.tagname ≠ "definition_list" then .error (.exc "AssertionError: definition_list")
  else para.childNodes.mapM (fun el =>
    if el.tagname ≠ "definition_list_item" then
      Except.error (PyErr.exc "AssertionError: definition_list_item")
    else match el.childNodes with
    | el0 :: el1 :: _ =>
      if el0.tagname ≠ "term" then .error (.exc "AssertionError: term")
      else match el0.childNodes with
      | el00 :: _ =>
        if el00.tagname ≠ "literal" ∧ el00.tagname ≠ "#text" then
          .error (.exc "AssertionError: term child")
        else if el1.tagname ≠ "definition" then .error (.exc "AssertionError: definition")
        else match el1.childNodes with
        | [p0] =>
          if p0.tagname ≠ "paragraph" then .error (.exc "AssertionError: paragraph")
          else match convert_para el1 with
               | .error e => .error e
               | .ok xml => .ok (xml.setAttr "title" el0.rawtext)
        | _ => .error (.exc "AssertionError: definition length")
      | [] => .error (.exc "IndexError: term")
    | _ => .error (.exc "IndexError: definition_list_item"))

/-- The `add_table_row` helper: ROW elements with one DATA per entry (an
empty entry gives empty text, a single-paragraph entry its flattened
text). -/
def add_table_row (el : Node) : Except PyErr (List XElem) :=
  if el.tagname ≠ "thead" ∧ el.tagname ≠ "tbody" then
    .error (.exc "AssertionError: thead or tbody")
  else el.childNodes.mapM (fun row =>
    if row.tagname ≠ "row" then Except.error (PyErr.exc "AssertionError: row")
    else match row.childNodes.mapM (fun entry =>
        if entry.tagname ≠ "entry" then Except.error (PyErr.exc "AssertionError: entry")
        else match entry.childNodes with
        | [] => .ok (elT "DATA" "")
        | [p] =>
          if p.tagname ≠ "paragraph" then .error (.exc "AssertionError: entry paragraph")
          else .ok (elT "DATA" entry.rawtext)
        | _ => .error (.exc "AssertionError: entry length")) with
    | .error e => .error e
    | .ok datas => .ok (elC "ROW" datas))

/-- The `convert_table` converter: exactly one tgroup whose `cols` attribute
parses to a positive count; colspec children are skipped, thead and tbody
rows are emitted, anything else raises ValueError. -/
def convert_table (tbl : Node) : Except PyErr XElem :=
  if tbl.tagname ≠ "table" then .error (.exc "AssertionError: table")
  else match tbl.childNodes with
  | [tgroup] =>
    if tgroup.tagname ≠ "tgroup" then .error (.exc "AssertionError: tgroup")
    else match (tgroup.get "cols").bind String.toNat? with
    | none => .error (.exc "TypeError: cols")
    | some ncols =>
      if ncols < 1 then .error (.exc "AssertionError: cols")
      else match tgroup.childNodes.mapM (fun el =>
          if el.tagname = "colspec" then Except.ok ([] : List XElem)
          else if el.tagname = "thead" ∨ el.tagname = "tbody" then add_table_row el
          else .error (.exc ("Unexpected tag: " ++ el.tagname))) with
      | .error e => .error e
      | .ok rowss => .ok (elC "TABLE" rowss.flatten)
  | _ => .error (.exc "AssertionError: table length")

/-- The `convert_note` converter: all children must be paragraphs and at
most two of them; one paragraph gives title `Note`, two give an explicit
title from the first.  An empty note indexes past the end. -/
def convert_note (note : Node) : Except PyErr XElem :=
  if note.tagname ≠ "note" then .error (.exc "AssertionError: note")
  else if ¬ note.childNodes.all (fun n => n.tagname == "paragraph") then
    .error (.exc "AssertionError: note paragraphs")
  else if note.childNodes.length ≥ 3 then .error (.exc "AssertionError: note length")
  else match note.childNodes with
  | [p] =>
    match convert_para p with
    | .error e => .error e
    | .ok out => .ok (out.setAttr "title" "Note")
  | [p0, p1] =>
    match astext p0 with
    | .error e => .error e
    | .ok title =>
      match convert_para p1 with
      | .error e => .error e
      | .ok out => .ok (out.setAttr "title" title)
  | _ => .error (.exc "IndexError: note")

/-- The `convert_field_body` converter: all children paragraphs; zero gives
an empty PARA, one delegates to `convert_para`, more raises ValueError. -/
def convert_field_body (fbody : Node) : Except PyErr XElem :=
  if fbody.tagname ≠ "field_body" then .error (.exc "AssertionError: field_body")
  else if ¬ fbody.childNodes.all (fun n => n.tagname == "paragraph") then
    .error (.exc "AssertionError: field_body paragraphs")
  else match fbody.childNodes with
  | [] => .ok (elT "PARA" "")
  | [p] => convert_para p
  | _ => .error (.exc "Need to handle blocks")

/-- The `make_para_blocks` dispatcher: system_message gives no output,
paragraphs use `convert_para`, the `para_converters` table handles the
other supported tags (with `definition_list` the only multi-element
converter), and an unknown tag raises the ValueError for an unsupported
paragraph type. -/
def make_para_blocks (para : Node) : Except PyErr (List XElem) :=
  if para.tagname = "system_message" then .ok []
  else if is_para para then
    match convert_para para with
    | .error e => .error e
    | .ok x => .ok [x]
  else if para.tagname = "definition_list" then convert_definition_list para
  else
    let single : Except PyErr XElem :=
      if para.tagname = "doctest_block" then convert_doctest_block para
      else if para.tagname = "block_quote" then convert_block_quote para
      else if para.tagname = "enumerated_list" then convert_enumerated_list para
      else if para.tagname = "bullet_list" then convert_bullet_list para
      else if para.tagname = "table" then convert_table para
      else if para.tagname = "note" then convert_note para
      else if para.tagname = "field_body" then convert_field_body para
      else if para.tagname = "literal_block" then convert_literal_block para
      else .error (.exc ("Unsupported paragraph type: " ++ para.tagname))
    match single with
    | .error e => .error e
    | .ok x => .ok [x]

/-! ## docutils.py: section extractors -/

/-- The `find_syntax` extractor: a signature (when given) supplies a default
one-line SYNTAX block; the first node is indexed unconditionally
(IndexError on an empty document); a first paragraph whose stripped text
starts with `name(` must also end with `)` (assert) and then overrides the
derived block, consuming that node; otherwise nothing is consumed. -/
def find_syntax (name : String) (sig : Option String) (indoc : List Node) :
    Except PyErr (Option XElem × List Node) :=
  let argline := sig.map (fun s => make_syntax_block [s])
  match indoc with
  | [] => .error (.exc "IndexError: list index out of range")
  | node :: rest =>
    if ¬ is_para node then .ok (argline, node :: rest)
    else
      let txt := pyStrip node.rawtext
      if ¬ pyStarts txt (name ++ "(") then .ok (argline, node :: rest)
      else if ¬ pyEnds txt ")" then .error (.exc ("AssertionError: " ++ txt))
      else .ok (some (make_syntax_block [txt]), rest)

/-- The `find_synopsis` extractor: the first node is indexed
unconditionally; a first paragraph is consumed as the SYNOPSIS, its
lower-cased whitespace-split tokens cleaned, deduplicated and sorted as the
keyword list; a non-paragraph first node produces nothing.  (Python returns
the empty string as the keyword value in that case; joined output is
identical to the empty list used here.) -/
def find_synopsis (indoc : List Node) :
    Except PyErr (Option XElem × List String × List Node) :=
  match indoc with
  | [] => .error (.exc "IndexError: list index out of range")
  | node :: rest =>
    if node.tagname ≠ "paragraph" then .ok (none, [], node :: rest)
    else
      let syn := pyStrip node.rawtext
      let keys := (pySplit (pyLower syn)).map cleanTok
      let keywords := pySorted keys.dedup
      .ok (some (elT "SYNOPSIS" syn), keywords, rest)

/-- The `find_desc` extractor: the maximal front run of nodes whose tag is
not rubric / field_list / container / seealso becomes the DESC block (via
`make_para_blocks`); an empty run produces nothing. -/
def find_desc (indoc : List Node) : Except PyErr (Option XElem × List Node) :=
  let want := fun (x : Node) => ¬ (["rubric", "field_list", "container", "seealso"].contains x.tagname)
  let pr := splitWhile want indoc
  if pr.1.isEmpty then .ok (none, indoc)
  else
    match pr.1.mapM make_para_blocks with
    | .error e => .error e
    | .ok bss => .ok (some (elC "DESC" bss.flatten), pr.2)

/-- One parameter record of a field list: the dict holding the parameter
name plus the param / type / ivar bodies keyed by field kind. -/
structure ParamEntry where
  name : String
  fields : List (String × Option Node)
deriving Repr

def lookupField (fs : List (String × Option Node)) (k : String) : Option (Option Node) :=
  match fs with
  | [] => none
  | (k1, v) :: rest => if k1 = k then some v else lookupField rest k

def setField (fs : List (String × Option Node)) (k : String) (v : Option Node) :
    List (String × Option Node) :=
  match fs with
  | [] => [(k, v)]
  | (k1, v1) :: rest => if k1 = k then (k, v) :: rest else (k1, v1) :: setField rest k v

/-- One entry of the `raises` list: either a bare body or the
token-annotated dict variant. -/
inductive RaisesEntry where
  | plain (body : Option Node)
  | withToks (toks : List String) (body : Option Node)
deriving Repr

/-- The result dict of `find_fieldlist`, with the params, returns and
raises collections. -/
structure FieldListResult where
  params : List ParamEntry
  returns : List (String × Option Node)
  raises : List RaisesEntry
deriving Repr

/-- The ordered dict accumulated inside `find_fieldlist`, keyed by
parameter name. -/
structure FLState where
  params : List (String × ParamEntry)
  returns : List (String × Option Node)
  raises : List RaisesEntry

def lookupParam (ps : List (String × ParamEntry)) (k : String) : Option ParamEntry :=
  match ps with
  | [] => none
  | (k1, v) :: rest => if k1 = k then some v else lookupParam rest k

def setParam (ps : List (String × ParamEntry)) (k : String) (v : ParamEntry) :
    List (String × ParamEntry) :=
  match ps with
  | [] => [(k, v)]
  | (k1, v1) :: rest => if k1 = k then (k, v) :: rest else (k1, v1) :: setParam rest k v

/-- Process one `field` child of a field_list: read `field_name` /
`field_body`, split the name on the first space, then dispatch on the first
token (`raises`, `returns`/`rtype`, or the named `param`/`type`/`ivar`
entries with the comma look-back merge for multi-name `ivar` rows). -/
def processField (st : FLState) (field : Node) : Except PyErr FLState :=
  if field.tagname ≠ "field" then .error (.exc "AssertionError: field")
  else
    match field.childNodes.foldlM (fun (acc : Option String × Option Node) f =>
        if f.tagname = "field_name" then Except.ok (some f.rawtext, acc.2)
        else if f.tagname = "field_body" then Except.ok (acc.1, some f)
        else Except.error (PyErr.exc "Unexpected field member")) ((none : Option String), (none : Option Node)) with
    | .error e => .error e
    | .ok (nameOpt, body) =>
      match nameOpt with
      | none => .error (.exc "AttributeError: NoneType split")
      | some name =>
        let toks := splitSpace1 name
        let t0 := toks.headD ""
        let ntoks := toks.length
        if ¬ (["param", "ivar", "type", "rtype", "raises", "returns"].contains t0) then
          .error (.exc ("AssertionError: " ++ name))
        else if t0 = "raises" then
          if ntoks = 1 then .ok { st with raises := st.raises ++ [.plain body] }
          else .ok { st with raises := st.raises ++ [.withToks toks.tail body] }
        else if t0 = "returns" ∨ t0 = "rtype" then
          if ntoks = 1 then .ok { st with returns := st.returns ++ [(t0, body)] }
          else .error (.exc "AssertionError: returns tokens")
        else if ntoks ≠ 2 then .error (.exc ("AssertionError: " ++ name))
        else
          let pname := (toks.drop 1).headD ""
          let merged : Option (Except PyErr FLState) :=
            if t0 = "ivar" ∧ ¬ st.params.isEmpty then
              match st.params.getLast? with
              | none => none
              | some (prevKey, prevVal) =>
                if pyEnds (pyStrip prevKey) "," then
                  match lookupField prevVal.fields "ivar" with
                  | none => some (.error (.exc "KeyError: ivar"))
                  | some none => some (.error (.exc "TypeError: len of None"))
                  | some (some b) =>
                    if b.childNodes.length = 0 then
                      let newKey := prevKey ++ " " ++ pname
                      let entry : ParamEntry :=
                        { name := newKey, fields := setField prevVal.fields "ivar" body }
                      some (.ok { st with params := setParam st.params.dropLast newKey entry })
                    else none
                else none
            else none
          match merged with
          | some r => r
          | none =>
            match lookupParam st.params pname with
            | some entry =>
              let entry2 : ParamEntry := { entry with fields := setField entry.fields t0 body }
              .ok { st with params := setParam st.params pname entry2 }
            | none =>
              .ok { st with params := st.params ++ [(pname, { name := pname, fields := [(t0, body)] })] }

/-- The `find_fieldlist` extractor: a front field_list node is consumed and
folded into parameter / returns / raises collections; otherwise nothing is
consumed. -/
def find_fieldlist (indoc : List Node) :
    Except PyErr (Option FieldListResult × List Node) :=
  match indoc with
  | [] => .ok (none, [])
  | node :: rest =>
    if node.tagname ≠ "field_list" then .ok (none, node :: rest)
    else
      match node.childNodes.foldlM processField
          ({ params := [], returns := [], raises := [] } : FLState) with
      | .error e => .error e
      | .ok st =>
        .ok (some { params := st.params.map Prod.snd,
                    returns := st.returns, raises := st.raises }, rest)

/-- The `find_seealso` extractor: a front seealso node is consumed; names
come from a sole definition_list child (the term of each item) or a sole
paragraph child (each literal/text token); bare-comma fragments are
stripped; a `sherpa.`-dotted name keeps its last segment, while any other
dotted name prints an error and calls `sys.exit(1)` (SystemExit);
duplicates are dropped preserving first occurrence. -/
def find_seealso (indoc : List Node) :
    Except PyErr (Option (List String) × List Node) :=
  match indoc with
  | [] => .ok (none, [])
  | node :: rest =>
    if node.tagname ≠ "seealso" then .ok (none, node :: rest)
    else
      let namesE : Except PyErr (List String) :=
        match node.childNodes with
        | [] => .error (.exc "IndexError: seealso")
        | c0 :: cs =>
          if c0.tagname = "definition_list" then
            if ¬ cs.isEmpty then .error (.exc "AssertionError: seealso length")
            else c0.childNodes.mapM (fun n =>
              if n.tagname ≠ "definition_list_item" then
                Except.error (PyErr.exc "AssertionError: definition_list_item")
              else match n.childNodes with
              | n0 :: _ =>
                if n0.tagname ≠ "term" then .error (.exc "AssertionError: term")
                else match n0.childNodes with
                | n00 :: _ =>
                  if n00.tagname = "literal" ∨ n00.tagname = "#text" then .ok n00.rawtext
                  else .error (.exc "AssertionError: term child")
                | [] => .error (.exc "IndexError: term")
              | [] => .error (.exc "IndexError: definition_list_item"))
          else if c0.tagname = "paragraph" then
            if ¬ cs.isEmpty then .error (.exc "AssertionError: seealso length")
            else c0.childNodes.mapM (fun n =>
              if n.tagname = "literal" ∨ n.tagname = "#text" then Except.ok n.rawtext
              else Except.error (PyErr.exc "AssertionError: paragraph child"))
          else .error (.exc "Unexpected see also contents")
      match namesE with
      | .error e => .error e
      | .ok names =>
        let names := names.filter (fun n => pyStrip n ≠ ",")
        match names.foldlM (fun (out : List String) n =>
            if pyStarts n "sherpa." then
              let nlast := (pySplitChar '.' n).getLastD ""
              Except.ok (if out.contains nlast then out else out ++ [nlast])
            else if containsStr n "." then
              Except.error (PyErr.exit 1)
            else
              Except.ok (if out.contains n then out else out ++ [n])) ([] : List String) with
        | .error e => .error e
        | .ok out => .ok (some out, rest)

/-- The XSPEC version-gating sentence filtered by `find_notes`. -/
def xspecVersionLine (v : String) : String :=
  "This model is only available when used with XSPEC " ++ v ++ " or later."

/-- The `find_notes` extractor: a front rubric titled `Notes` starts the
run up to the next rubric; paragraphs equal to the 12.9.1/12.10.0 XSPEC
boilerplate are filtered out; an emptied run collapses to no section (while
still consuming the run); a sole remaining 12.10.1 sentence becomes the
"New in CIAO 4.12" block; otherwise the run converts into an ADESC titled
`Notes` (which must end up non-empty). -/
def find_notes (name : String) (indoc : List Node) :
    Except PyErr (Option XElem × List Node) :=
  match indoc with
  | [] => .ok (none, [])
  | node :: rest =>
    if node.tagname ≠ "rubric" then .ok (none, node :: rest)
    else if pyStrip node.rawtext ≠ "Notes" then .ok (none, node :: rest)
    else
      let pr := splitWhile (fun x => x.tagname != "rubric") rest
      let lnodes := pr.1.filter (fun n =>
        ¬ (n.rawtext = xspecVersionLine "12.9.1" ∨ n.rawtext = xspecVersionLine "12.10.0"))
      if lnodes.isEmpty then .ok (none, pr.2)
      else if lnodes.length = 1 ∧ (lnodes.headD (.text "")).rawtext = xspecVersionLine "12.10.1" then
        .ok (some (XElem.mk "ADESC" [("title", "New in CIAO 4.12")] "" ""
          [elT "PARA" ("The " ++ name ++ " model " ++
            "(added in XSPEC 12.10.1) is new in CIAO 4.12")]), pr.2)
      else
        match lnodes.mapM make_para_blocks with
        | .error e => .error e
        | .ok bss =>
          if bss.flatten.isEmpty then .error (.exc "AssertionError: notes empty")
          else .ok (some (XElem.mk "ADESC" [("title", "Notes")] "" "" bss.flatten), pr.2)

/-- The `find_warning` extractor: a front warning node (which must have
exactly one child) is consumed into an ADESC titled `Warning`. -/
def find_warning (indoc : List Node) : Except PyErr (Option XElem × List Node) :=
  match indoc with
  | [] => .ok (none, [])
  | node :: rest =>
    if node.tagname ≠ "warning" then .ok (none, node :: rest)
    else match node.childNodes with
    | [c] =>
      match astext c with
      | .error e => .error e
      | .ok t =>
        .ok (some (XElem.mk "ADESC" [("title", "Warning")] "" "" [elT "PARA" t]), rest)
    | _ => .error (.exc "AssertionError: warning length")

/-- The `find_references` extractor: a front rubric titled `References`
starts the run up to the next rubric; every node of the run must be a
footnote, flattened into ITEM elements of a LIST inside an ADESC. -/
def find_references (indoc : List Node) : Except PyErr (Option XElem × List Node) :=
  match indoc with
  | [] => .ok (none, [])
  | node :: rest =>
    if node.tagname ≠ "rubric" then .ok (none, node :: rest)
    else if pyStrip node.rawtext ≠ "References" then .ok (none, node :: rest)
    else
      let pr := splitWhile (fun x => x.tagname != "rubric") rest
      match pr.1.mapM (fun fn =>
          if fn.tagname ≠ "footnote" then Except.error (PyErr.exc "AssertionError: footnote")
          else match astext fn with
               | .error e => .error e
               | .ok t => .ok (elT "ITEM" t)) with
      | .error e => .error e
      | .ok items =>
        .ok (some (XElem.mk "ADESC" [("title", "References")] "" ""
          [elC "LIST" items]), pr.2)

/-- Modify the last element of a list in place (reference semantics of
holding on to `out[-1]`). -/
def modifyLast (f : XElem → XElem) : List XElem → List XElem
  | [] => []
  | [x] => [f x]
  | x :: xs => x :: modifyLast f xs

/-- Append converted blocks to the DESC of the last QEXAMPLE (the element
the desc variable of the Python code points at). -/
def appendToLastDesc (out : XElem) (ps : List XElem) : XElem :=
  match out with
  | .mk t a tx tl cs =>
    .mk t a tx tl (modifyLast (fun qex =>
      match qex with
      | .mk qt qa qtx qtl qcs =>
        .mk qt qa qtx qtl (modifyLast (fun d => d.appendChildren ps) qcs)) cs)

/-- One iteration of the `find_examples` loop.  The state is the
QEXAMPLELIST built so far plus whether `desc` currently points at the DESC
of the last example (it can point nowhere else).  A paragraph whose first
character is lowercase continues the previous example only when the list
already holds more than one example (`len(out) > 1` in the source); a
non-paragraph node closes the current example. -/
def exampleStep (st : XElem × Bool) (para : Node) : Except PyErr (XElem × Bool) :=
  let out := st.1
  let descActive := st.2
  let nm := para.tagname
  if ¬ (["paragraph", "doctest_block", "block_quote", "literal_block"].contains nm) then
    .error (.exc ("AssertionError: example tag " ++ nm))
  else
    let prepared : Except PyErr XElem :=
      if descActive then .ok out
      else if nm = "paragraph" ∧ out.children.length > 1 then
        match para.rawtext.data with
        | [] => .error (.exc "IndexError: string index out of range")
        | c :: _ =>
          if c.isLower then
            match out.children.getLast? with
            | none => .error (.exc "IndexError: out")
            | some qex =>
              if qex.tag ≠ "QEXAMPLE" then .error (.exc "AssertionError: QEXAMPLE")
              else match qex.children.getLast? with
                | none => .error (.exc "IndexError: qex")
                | some d =>
                  if d.tag ≠ "DESC" then .error (.exc "AssertionError: DESC")
                  else .ok out
          else .ok (out.appendChildren [elC "QEXAMPLE" [elC "DESC" []]])
      else .ok (out.appendChildren [elC "QEXAMPLE" [elC "DESC" []]])
    match prepared with
    | .error e => .error e
    | .ok out2 =>
      match make_para_blocks para with
      | .error e => .error e
      | .ok ps => .ok (appendToLastDesc out2 ps, nm = "paragraph")

/-- The `find_examples` extractor: a front rubric titled `Examples` (or
`Example`) starts the run up to the next rubric; the run is partitioned
into QEXAMPLE blocks by `exampleStep`. -/
def find_examples (indoc : List Node) : Except PyErr (Option XElem × List Node) :=
  match indoc with
  | [] => .ok (none, [])
  | node :: rest =>
    if node.tagname ≠ "rubric" then .ok (none, node :: rest)
    else
      let txt := pyStrip node.rawtext
      if ¬ (txt = "Examples" ∨ txt = "Example") then .ok (none, node :: rest)
      else
        let pr := splitWhile (fun x => x.tagname != "rubric") rest
        match pr.1.foldlM exampleStep (elC "QEXAMPLELIST" [], false) with
        | .error e => .error e
        | .ok st => .ok (some st.1, pr.2)

/-! ## docutils.py: augmentation helpers and metadata -/

/-- The Sherpa symbol passed to the converter: absent (`None`), a
`ModelWrapper` (with the lower-cased model type name, the printed default
instance, and the XSAdditiveModel / XSMultiplicativeModel subclass flags),
or any other object. -/
inductive SymbolInfo where
  | pyNone
  | model (mtypeLower : String) (strval : String) (isAdditive : Bool) (isMultiplicative : Bool)
  | plain
deriving Repr, DecidableEq

/-- The `add_pars_to_syntax` helper: when both a SYNTAX block and a field
list exist and at least one parameter carries a `type` entry, append a
blank LINE and one `name - type` LINE per typed parameter. -/
def add_pars_to_syntax (syn : Option XElem) (fieldlist : Option FieldListResult) :
    Except PyErr (Option XElem) :=
  match syn, fieldlist with
  | none, _ => .ok none
  | some s, none => .ok (some s)
  | some s, some fl =>
    let partypes := fl.params.filterMap (fun p =>
      (lookupField p.fields "type").map (fun t => (p.name, t)))
    if partypes.isEmpty then .ok (some s)
    else
      match partypes.foldlM (fun (acc : XElem) pt =>
          match pt.2 with
          | none => Except.error (PyErr.exc "AttributeError: NoneType tagname")
          | some ptype =>
            match make_para_blocks ptype with
            | .error e => .error e
            | .ok [p0] =>
              Except.ok (acc.appendChildren [elT "LINE" (pt.1 ++ " - " ++ p0.text)])
            | .ok _ => Except.error (PyErr.exc "AssertionError: pars length"))
          (s.appendChildren [elT "LINE" ""]) with
      | .error e => .error e
      | .ok s2 => .ok (some s2)

/-- The `add_synonyms_to_syntax` helper: with both a SYNTAX block and a
synonym list present, exactly one synonym is required (assert) and an
`Alias:` LINE is appended after a blank LINE. -/
def add_synonyms_to_syntax (syn : Option XElem) (synonyms : Option (List String)) :
    Except PyErr (Option XElem) :=
  match syn, synonyms with
  | none, _ => .ok none
  | some s, none => .ok (some s)
  | some s, some ss =>
    match ss with
    | [s0] => .ok (some (s.appendChildren [elT "LINE" "", elT "LINE" ("Alias: " ++ s0)]))
    | _ => .error (.exc "AssertionError: synonyms")

/-- The `augment_examples` helper: for a model symbol, push a generated
QEXAMPLE (create/print the default component) at the front of the example
list, creating the QEXAMPLELIST when absent. -/
def augment_examples (examples : Option XElem) (symbol : SymbolInfo) : Option XElem :=
  match symbol with
  | .pyNone => examples
  | .plain => examples
  | .model mtype strval _ _ =>
    let base := match examples with
      | none => elC "QEXAMPLELIST" []
      | some e => e
    let ex := elC "QEXAMPLE"
      [elC "SYNTAX"
        [elT "LINE" (">>> create_model_component(\x22" ++ mtype ++ "\x22, \x22mdl\x22)"),
         elT "LINE" ">>> print(mdl)"],
       elC "DESC"
        [elT "PARA" ("Create a component of the " ++ mtype ++ " model" ++
           " and display its default parameters. The output is:"),
         elT "VERBATIM" strval]]
    match base with
    | .mk t a tx tl cs => some (.mk t a tx tl (ex :: cs))

/-- The `extract_params` converter: turn a field list into the
PARAMETERS/ATTRIBUTES ADESC block (or nothing when only a raises block is
present). -/
def extract_params (fieldinfo : Option FieldListResult) : Except PyErr (Option XElem) :=
  match fieldinfo with
  | none => .ok none
  | some info =>
    let parinfo := info.params
    let retinfo := info.returns
    let is_attrs := parinfo.any (fun p => (lookupField p.fields "ivar").isSome)
    let nparams := parinfo.length
    let nret := retinfo.length
    if nparams = 0 ∧ nret = 0 then
      if info.raises.isEmpty then .error (.exc "AssertionError: raises")
      else .ok none
    else
      let nv : String × String := if is_attrs then ("object", "attribute") else ("function", "parameter")
      let introText :=
        if nparams = 0 then "This " ++ nv.1 ++ " has no " ++ nv.2 ++ "s"
        else if nparams = 1 then "The " ++ nv.2 ++ " for this " ++ nv.1 ++ " is:"
        else "The " ++ nv.2 ++ "s for this " ++ nv.1 ++ " are:"
      let adesc0 := XElem.mk "ADESC" [("title", pyUpper nv.2 ++ "S")] "" ""
        [elT "PARA" introText]
      match parinfo.foldlM (fun (acc : XElem) par =>
          match lookupField par.fields "param" with
          | some b =>
            match b with
            | none => Except.error (PyErr.exc "AttributeError: NoneType tagname")
            | some bn =>
              match make_para_blocks bn with
              | .error e => .error e
              | .ok [] => .error (.exc "AssertionError: params")
              | .ok (p0 :: ps) =>
                Except.ok (acc.appendChildren (p0.setAttr "title" par.name :: ps))
          | none =>
            match lookupField par.fields "ivar" with
            | some b =>
              match b with
              | none => Except.error (PyErr.exc "AttributeError: NoneType tagname")
              | some bn =>
                match make_para_blocks bn with
                | .error e => .error e
                | .ok [] => .error (.exc "AssertionError: params")
                | .ok (p0 :: ps) =>
                  Except.ok (acc.appendChildren (p0.setAttr "title" par.name :: ps))
            | none =>
              let p := elA "PARA" [("title", par.name)] []
              Except.ok (acc.appendChildren [p, p])) adesc0 with
      | .error e => .error e
      | .ok adesc1 =>
        if nret = 0 then .ok (some adesc1)
        else
          let adesc2 := adesc1.appendChildren
            [XElem.mk "PARA" [("title", "Return value")]
              "The return value from this function is:" "" []]
          let rvals := (retinfo.filter (fun r => r.1 = "returns")).map Prod.snd
          match rvals with
          | [some rv] =>
            match convert_para rv with
            | .error e => .error e
            | .ok p => .ok (some (adesc2.appendChildren [p]))
          | [none] => .error (.exc "AttributeError: NoneType")
          | _ => .error (.exc "AssertionError: rvals")

/-- The `create_seealso` helper: pair the lower-cased symbol name with each
lower-cased see-also name (smaller string first) and join with spaces;
no see-also list gives two empty strings. -/
def create_seealso (name : String) (seealso : Option (List String)) : String × String :=
  match seealso with
  | none => ("", "")
  | some ss =>
    let nlower := pyLower name
    let pairs := ss.map (fun s =>
      let t2 := pyLower s
      if lexLt nlower.data t2.data then nlower ++ t2 else t2 ++ nlower)
    (String.intercalate " " pairs, "")

/-- The `find_context` lookup: models map to `models`; otherwise a
hard-coded name/category table with prefix rules, falling back to the
`sherpaish` sentinel. -/
def find_context (name : String) (symbol : SymbolInfo) : String :=
  match symbol with
  | .model _ _ _ _ => "models"
  | _ =>
    if ["get_conf_results", "get_conf_opt",
        "get_covar_results", "get_covar_opt",
        "get_proj_results", "get_proj_opt"].contains name then "confidence"
    else if pyStarts name "get_method" then "methods"
    else if ["fit_bkg", "get_fit_results"].contains name then "fitting"
    else if ["ignore2d_image", "notice2d_image"].contains name then "filtering"
    else if ["get_bkg_model", "get_bkg_source",
             "get_model_pars", "get_model_type",
             "get_num_par_frozen", "get_num_par_thawed",
             "get_xsabund",
             "get_xscosmo",
             "get_xsxsect",
             "get_xsxset",
             "load_template_interpolator",
             "load_xstable_model",
             "get_xschatter", "set_xschatter",
             "set_bkg_full_model"].contains name then "modeling"
    else if ["get_sampler_name", "get_sampler_opt",
             "get_stat_name"].contains name then "statistics"
    else if pyStarts name "plot_" || containsStr name "_plot" then "plotting"
    else if pyStarts name "group" ||
            ["create_arf", "create_rmf",
             "get_bkg_arf", "get_bkg_rmf"].contains name then "data"
    else if ["multinormal_pdf", "multit_pdf"].contains name then "utilities"
    else if ["get_data_contour", "get_data_contour_prefs",
             "get_data_image", "get_fit_contour",
             "get_kernel_contour", "get_kernel_image",
             "get_model_contour", "get_model_contour_prefs",
             "get_model_image",
             "get_psf_contour", "get_psf_image",
             "get_ratio_contour", "get_ratio_image",
             "get_resid_contour", "get_resid_image",
             "get_source_contour", "get_source_image"].contains name then "visualization"
    else if name = "get_functions" then "info"
    else "sherpaish"

/-- The external AHELP metadata record (the dict returned by
`parsers.ahelp.find_metadata`, every field a string with the empty string
standing for an absent XML attribute). -/
structure Metadata where
  key : String
  refkeywords : String
  seealsogroups : String
  displayseealsogroups : String
  context : String
deriving Repr, DecidableEq

/-- Everything `convert_docutils` has computed by the time it checks for
trailing content. -/
structure PipelineOut where
  syntaxBlock : Option XElem
  synopsis : Option XElem
  refkeywords : List String
  desc : Option XElem
  params : Option XElem
  warnings : Option XElem
  seealso : Option (List String)
  notes : Option XElem
  notes2 : Option XElem
  refs : Option XElem
  examples : Option XElem
  remainder : List Node
deriving Repr

/-- The extraction/augmentation phase of `convert_docutils`, in source
order: syntax, synopsis, description, the XSPEC additive/multiplicative
SYNTAX note (asserting a SYNTAX block exists), field list, warning,
see-also, the ignored second field list, `extract_params`, the synonym and
parameter SYNTAX augmentations, the late see-also retry, notes (twice, the
duplicate merge hack), references, examples, `augment_examples`, and the
late references retry. -/
def runPipeline (name : String) (sig : Option String) (symbol : SymbolInfo)
    (synonyms : Option (List String)) (doc : List Node) : Except PyErr PipelineOut := do
  let (syntaxBlock, nodes) ← find_syntax name sig doc
  let (synopsis, refkeywords, nodes) ← find_synopsis nodes
  let (desc, nodes) ← find_desc nodes
  let syntaxBlock ←
    (match symbol with
     | .model _ _ isAdd isMul =>
       if isAdd ∨ isMul then
         match syntaxBlock with
         | none => Except.error (PyErr.exc "AssertionError: no SYNTAX for XSPEC model")
         | some s =>
           let mline := "The " ++ name ++ " model is " ++
             (if isAdd then "an additive" else "a multiplicative") ++ " model component."
           Except.ok (some ((s.appendChildren [elT "LINE" ""]).appendChildren [elT "LINE" mline]))
       else Except.ok syntaxBlock
     | _ => Except.ok syntaxBlock)
  let (fieldlist1, nodes) ← find_fieldlist nodes
  let (warnings, nodes) ← find_warning nodes
  let (seealso, nodes) ← find_seealso nodes
  let (fieldlist2, nodes) ← find_fieldlist nodes
  let _ := fieldlist2
  let params ← extract_params fieldlist1
  let syntaxBlock ← add_synonyms_to_syntax syntaxBlock synonyms
  let syntaxBlock ← add_pars_to_syntax syntaxBlock fieldlist1
  let (seealso, nodes) ←
    (match seealso with
     | none => find_seealso nodes
     | some s => Except.ok (some s, nodes))
  let (notes, nodes) ← find_notes name nodes
  let (notes2, nodes) ← find_notes name nodes
  let (refs, nodes) ← find_references nodes
  let (examples, nodes) ← find_examples nodes
  let examples := augment_examples examples symbol
  let (refs, nodes) ←
    (match refs with
     | none => find_references nodes
     | some r => Except.ok (some r, nodes))
  Except.ok { syntaxBlock := syntaxBlock, synopsis := synopsis,
              refkeywords := refkeywords, desc := desc, params := params,
              warnings := warnings, seealso := seealso, notes := notes,
              notes2 := notes2, refs := refs, examples := examples,
              remainder := nodes }

/-! ## docutils.py: document assembly -/

/-- The result of `convert_docutils`: either the assembled document (the
root element wrapping the single ENTRY) or, when nodes remain after all
extraction, the leftover node list itself (the `return nodes` at the end of
the function, logged as `ignoring trailing`). -/
inductive ConvResult where
  | doc (d : XElem)
  | trailing (ns : List Node)
deriving Repr

/-- The merged refkeywords token list: with an external record the current
string and the record tokens are concatenated, split, deduplicated and
sorted (`sorted(list(set(newkeys)))`); without one the synopsis-derived
tokens pass through unchanged. -/
def mergedTokens (rk0 : List String) (md : Option Metadata) : List String :=
  match md with
  | none => rk0
  | some m => pySorted (List.dedup (pySplit (String.intercalate " " rk0 ++ " " ++ m.refkeywords)))

/-- The refkeywords attribute before the synonym prepend. -/
def mergedRefkeywords (rk0 : List String) (md : Option Metadata) : String :=
  String.intercalate " " (mergedTokens rk0 md)

/-- The final refkeywords attribute: synonyms, when given, are prepended
verbatim (space-joined) with no deduplication or re-sort. -/
def finalRefkeywords (rk0 : List String) (md : Option Metadata)
    (synonyms : Option (List String)) : String :=
  match synonyms with
  | none => mergedRefkeywords rk0 md
  | some ss => String.intercalate " " ss ++ " " ++ mergedRefkeywords rk0 md

/-- The ENTRY context attribute: an external record assigns its context
value unconditionally (the later `is None` test no longer fires, even for
the empty string); only with no record at all does `find_context` supply
the fallback. -/
def finalContext (name : String) (symbol : SymbolInfo) (md : Option Metadata) : String :=
  match md with
  | some m => m.context
  | none => find_context name symbol

/-- The ENTRY key attribute: the record key when present, else the
symbol name. -/
def finalKey (name : String) (md : Option Metadata) : String :=
  match md with
  | some m => m.key
  | none => name

/-- The fixed XSPEC-version postamble block. -/
def xspecPostamble : XElem :=
  XElem.mk "ADESC" [("title", "XSPEC version")] "" ""
    [elT "PARA" ("CIAO 4.12 comes with support for version " ++
       "12.10.1n of the XSPEC models. This can be " ++
       "checked with the following:"),
     elC "PARA"
       [elC "SYNTAX"
         [elT "LINE" ("% python -c \x27from sherpa.astro import xspec; " ++
            "print(xspec.get_xsversion())\x27"),
          elT "LINE" "12.10.1n"]]]

/-- The fixed BUGS postamble block (the HREF keeps its tail text). -/
def bugsBlock : XElem :=
  XElem.mk "BUGS" [] "" ""
    [XElem.mk "PARA" [] "See the " ""
      [XElem.mk "HREF" [("link", "https://cxc.harvard.edu/sherpa/bugs/")]
        "bugs pages on the Sherpa website"
        " for an up-to-date listing of known bugs." []]]

/-- The assembly phase of `convert_docutils` (after the trailing-content
check): root element by DTD, ENTRY attribute set (pkg, key, refkeywords,
seealsogroups, displayseealsogroups, context) with the metadata merge and
context fallback, the extracted sections in fixed order, then the XSPEC
note (for names containing `xs`), BUGS and LASTMODIFIED postamble. -/
def buildDoc (name : String) (symbol : SymbolInfo) (md : Option Metadata)
    (synonyms : Option (List String)) (dtd : String) (po : PipelineOut) :
    Except PyErr ConvResult :=
  let rootnameE : Except PyErr String :=
    if dtd = "ahelp" then .ok "cxchelptopics"
    else if dtd = "sxml" then .ok "cxcdocumentationpage"
    else .error (.exc "RuntimeError: unknown dtd")
  match rootnameE with
  | .error e => .error e
  | .ok rootname =>
    let st := create_seealso name po.seealso
    let xmlattrs : List (String × String) :=
      [("pkg", "sherpa"),
       ("key", finalKey name md),
       ("refkeywords", finalRefkeywords po.refkeywords md synonyms),
       ("seealsogroups", st.1),
       ("displayseealsogroups", st.2),
       ("context", finalContext name symbol md)]
    let sections := [po.synopsis, po.syntaxBlock, po.desc, po.examples, po.params,
                     po.warnings, po.notes, po.notes2, po.refs].filterMap id
    let post := (if containsStr name "xs" then [xspecPostamble] else []) ++
                [bugsBlock, elT "LASTMODIFIED" "December 2020"]
    let entry := XElem.mk "ENTRY" xmlattrs "" "" (sections ++ post)
    .ok (.doc (XElem.mk rootname [] "" "" [entry]))

/-- The `convert_docutils` entry point: DTD validation, the synonym
non-emptiness assert, the extraction pipeline, the trailing-content escape
hatch (returning the leftover nodes), then document assembly. -/
def convert_docutils (name : String) (doc : List Node) (sig : Option String)
    (symbol : SymbolInfo) (metadata : Option Metadata)
    (synonyms : Option (List String)) (dtd : String) : Except PyErr ConvResult :=
  if ¬ (dtd = "ahelp" ∨ dtd = "sxml") then .error (.exc "Unrecognized dtd value")
  else if synonyms = some [] then .error (.exc "AssertionError: synonyms")
  else
    match runPipeline name sig symbol synonyms doc with
    | .error e => .error e
    | .ok po =>
      if ¬ po.remainder.isEmpty then .ok (.trailing po.remainder)
      else buildDoc name symbol metadata synonyms dtd po

/-- The ENTRY element of an assembled document. -/
def entryOf (d : XElem) : Option XElem := d.children.head?

/-- An attribute of the ENTRY element of an assembled document. -/
def entryAttr (d : XElem) (k : String) : Option String :=
  (entryOf d).bind (fun e => e.attrs.lookup k)

/-! ## doc2ahelp.py: the batch loop boundary -/

/-- The output filename of `doc2ahelp.convert`: the reserved name `group`
is remapped to `group_sherpa`, and the suffix follows the DTD. -/
def outName (name dtd : String) : String :=
  (if name = "group" then "group_sherpa" else name) ++ "." ++
  (if dtd = "sxml" then "sxml" else "xml")

/-- The root/DOCTYPE pairing check of `helpers.save_doc`; called on
whatever `process_symbol` returned, it raises AttributeError when that
value is not an ElementTree (the trailing-nodes case returns a plain
list). -/
def save_doc_check (res : ConvResult) : Except PyErr String :=
  match res with
  | .trailing _ => .error (.exc "AttributeError: list object has no attribute getroot")
  | .doc d =>
    if d.tag = "cxchelptopics" then .ok "CXCHelp.dtd"
    else if d.tag = "cxcdocumentationpage" then
      .ok "/data/da/Docs/sxml_manuals/dtds/CXCDocPage.dtd"
    else .error (.exc ("Unrecognized root element: " ++ d.tag))

/-- Outcome of one symbol inside the batch loop of `doc2ahelp.convert`. -/
inductive SymbolOutcome where
  | written (filename : String) (d : XElem)
  | recordedError
  | batchAbort
deriving Repr

/-- The per-symbol body of the batch loop (`doc2ahelp.convert` lines
461-497): `process_symbol` runs inside `try .. except Exception`, so an
ordinary exception is logged (`ERROR PROCESSING`), recorded in the error
list and the loop continues; a `SystemExit` from `sys.exit` escapes the
handler and aborts the batch; `save_doc` runs outside the `try`, so its
failure (in particular the AttributeError on a trailing-nodes return
value) also aborts the batch. -/
def processOne (name : String) (doc : List Node) (sig : Option String)
    (symbol : SymbolInfo) (metadata : Option Metadata)
    (synonyms : Option (List String)) (dtd : String) : SymbolOutcome :=
  match convert_docutils name doc sig symbol metadata synonyms dtd with
  | .error (.exc _) => .recordedError
  | .error (.exit _) => .batchAbort
  | .ok res =>
    match save_doc_check res with
    | .error _ => .batchAbort
    | .ok _ =>
      match res with
      | .doc d => .written (outName name dtd) d
      | .trailing _ => .batchAbort

/-! ## Helper lemmas -/

theorem lexLe_total : ∀ a b : List Char, lexLe a b = true ∨ lexLe b a = true := by
  intro a b
  induction a generalizing b with
  | nil => left; rfl
  | cons c cs ih =>
    cases b with
    | nil => right; rfl
    | cons d ds =>
      by_cases h1 : c < d
      · left; simp [lexLe, h1]
      · by_cases h2 : d < c
        · right; simp [lexLe, h2, h1]
        · rcases ih ds with h | h
          · left; simpa [lexLe, h1, h2] using h
          · right; simpa [lexLe, h1, h2] using h

theorem lexLe_trans : ∀ a b c : List Char,
    lexLe a b = true → lexLe b c = true → lexLe a c = true := by
  intro a
  induction a with
  | nil => intro b c _ _; rfl
  | cons x xs ih =>
    intro b c h1 h2
    cases b with
    | nil => simp [lexLe] at h1
    | cons y ys =>
      cases c with
      | nil => simp [lexLe] at h2
      | cons z zs =>
        simp only [lexLe] at h1 h2 ⊢
        by_cases hxy : x < y
        · by_cases hyz : y < z
          · simp [lt_trans hxy hyz]
          · by_cases hzy : z < y
            · simp [hyz, hzy] at h2
            · have hyzeq : y = z := le_antisymm (not_lt.mp hzy) (not_lt.mp hyz)
              subst hyzeq
              simp [hxy]
        · by_cases hyx : y < x
          · simp [hxy, hyx] at h1
          · have hxyeq : x = y := le_antisymm (not_lt.mp hyx) (not_lt.mp hxy)
            subst hxyeq
            simp only [hxy, if_neg, lt_irrefl, if_false] at h1 ⊢
            by_cases hyz : x < z
            · simp [hyz]
            · by_cases hzy : z < x
              · simp [hyz, hzy] at h2
              · have : x = z := le_antisymm (not_lt.mp hzy) (not_lt.mp hyz)
                subst this
                simp only [lt_irrefl, if_false] at h2 ⊢
                exact ih _ _ h1 h2

instance : IsTotal String pyLe := ⟨fun a b => lexLe_total a.data b.data⟩

instance : IsTrans String pyLe := ⟨fun a b c => lexLe_trans a.data b.data c.data⟩

theorem pySorted_sorted (xs : List String) : List.Sorted pyLe (pySorted xs) :=
  List.sorted_insertionSort pyLe xs

theorem pySorted_perm (xs : List String) : List.Perm (pySorted xs) xs :=
  List.perm_insertionSort pyLe xs

theorem pySorted_dedup_nodup (xs : List String) : (pySorted xs.dedup).Nodup :=
  (pySorted_perm xs.dedup).symm.nodup (List.nodup_dedup xs)

theorem splitWhile_append (p : Node → Bool) (xs : List Node) :
    (splitWhile p xs).1 ++ (splitWhile p xs).2 = xs := by
  induction xs with
  | nil => rfl
  | cons x xs ih =>
    by_cases h : p x
    · simp [splitWhile, h, ih]
    · simp [splitWhile, h]

theorem splitWhile_suffix (p : Node → Bool) (xs : List Node) :
    (splitWhile p xs).2 <:+ xs :=
  ⟨(splitWhile p xs).1, splitWhile_append p xs⟩

theorem except_bind_ok {ε α β : Type} {e : Except ε α} {f : α → Except ε β} {b : β}
    (h : e >>= f = .ok b) : ∃ a, e = .ok a ∧ f a = .ok b := by
  cases e with
  | error e => simp [Bind.bind, Except.bind] at h
  | ok a => exact ⟨a, rfl, by simpa [Bind.bind, Except.bind] using h⟩

theorem find_synopsis_keywords (indoc : List Node) (sec : Option XElem)
    (kws : List String) (rest : List Node)
    (h : find_synopsis indoc = .ok (sec, kws, rest)) :
    List.Sorted pyLe kws ∧ kws.Nodup := by
  cases indoc with
  | nil => simp [find_synopsis] at h
  | cons node r =>
    by_cases ht : node.tagname = "paragraph"
    · simp only [find_synopsis, ht, ne_eq, not_true_eq_false, if_false,
        Except.ok.injEq, Prod.mk.injEq] at h
      obtain ⟨-, hk, -⟩ := h
      subst hk
      exact ⟨pySorted_sorted _, pySorted_dedup_nodup _⟩
    · simp only [find_synopsis, ht, ne_eq, not_false_eq_true, if_true,
        Except.ok.injEq, Prod.mk.injEq] at h
      obtain ⟨-, hk, -⟩ := h
      subst hk
      exact ⟨List.sorted_nil, List.nodup_nil⟩

theorem runPipeline_refkeywords (name : String) (sig : Option String)
    (symbol : SymbolInfo) (syns : Option (List String)) (doc : List Node)
    (po : PipelineOut) (h : runPipeline name sig symbol syns doc = .ok po) :
    List.Sorted pyLe po.refkeywords ∧ po.refkeywords.Nodup := by
  unfold runPipeline at h
  obtain ⟨⟨sb0, nodes1⟩, h1, h⟩ := except_bind_ok h
  obtain ⟨⟨syne, kws, nodes2⟩, h2, h⟩ := except_bind_ok h
  obtain ⟨⟨desc, nodes3⟩, h3, h⟩ := except_bind_ok h
  obtain ⟨sb1, h4, h⟩ := except_bind_ok h
  obtain ⟨⟨fl1, nodes4⟩, h5, h⟩ := except_bind_ok h
  obtain ⟨⟨warn, nodes5⟩, h6, h⟩ := except_bind_ok h
  obtain ⟨⟨sa, nodes6⟩, h7, h⟩ := except_bind_ok h
  obtain ⟨⟨fl2, nodes7⟩, h8, h⟩ := except_bind_ok h
  obtain ⟨params, h9, h⟩ := except_bind_ok h
  obtain ⟨sb2, h10, h⟩ := except_bind_ok h
  obtain ⟨sb3, h11, h⟩ := except_bind_ok h
  obtain ⟨⟨sa2, nodes8⟩, h12, h⟩ := except_bind_ok h
  obtain ⟨⟨notes, nodes9⟩, h13, h⟩ := except_bind_ok h
  obtain ⟨⟨notes2, nodes10⟩, h14, h⟩ := except_bind_ok h
  obtain ⟨⟨refs, nodes11⟩, h15, h⟩ := except_bind_ok h
  obtain ⟨⟨examples, nodes12⟩, h16, h⟩ := except_bind_ok h
  obtain ⟨⟨refs2, nodes13⟩, h17, h⟩ := except_bind_ok h
  simp only [Except.ok.injEq] at h
  subst h
  exact find_synopsis_keywords _ _ _ _ h2

theorem convert_docutils_doc_inv (name : String) (doc : List Node) (sig : Option String)
    (symbol : SymbolInfo) (md : Option Metadata) (syns : Option (List String))
    (dtd : String) (d : XElem)
    (h : convert_docutils name doc sig symbol md syns dtd = .ok (.doc d)) :
    ∃ po, runPipeline name sig symbol syns doc = .ok po ∧
      po.remainder = [] ∧
      buildDoc name symbol md syns dtd po = .ok (.doc d) := by
  unfold convert_docutils at h
  split at h
  · simp at h
  · split at h
    · simp at h
    · cases hrp : runPipeline name sig symbol syns doc with
      | error e => rw [hrp] at h; simp at h
      | ok po =>
        rw [hrp] at h
        have h' : (if ¬ po.remainder.isEmpty then Except.ok (ConvResult.trailing po.remainder)
                   else buildDoc name symbol md syns dtd po) = .ok (.doc d) := h
        by_cases hrem : po.remainder.isEmpty
        · rw [if_neg (by simpa using hrem)] at h'
          exact ⟨po, rfl, by simpa using hrem, h'⟩
        · rw [if_pos (by simpa using hrem)] at h'
          simp at h'

theorem buildDoc_doc_attrs (name : String) (symbol : SymbolInfo) (md : Option Metadata)
    (syns : Option (List String)) (dtd : String) (po : PipelineOut) (d : XElem)
    (h : buildDoc name symbol md syns dtd po = .ok (.doc d)) :
    entryAttr d "key" = some (finalKey name md) ∧
    entryAttr d "refkeywords" = some (finalRefkeywords po.refkeywords md syns) ∧
    entryAttr d "context" = some (finalContext name symbol md) ∧
    d.tag = (if dtd = "ahelp" then "cxchelptopics" else "cxcdocumentationpage") := by
  by_cases h1 : dtd = "ahelp"
  · subst h1
    have hd := ConvResult.doc.inj (Except.ok.inj h)
    subst hd
    exact ⟨rfl, rfl, rfl, rfl⟩
  · by_cases h2 : dtd = "sxml"
    · subst h2
      have hd := ConvResult.doc.inj (Except.ok.inj h)
      subst hd
      exact ⟨rfl, rfl, rfl, rfl⟩
    · simp [buildDoc, h1, h2] at h

theorem find_syntax_tail (name : String) (sig : Option String) (indoc : List Node)
    (sec : Option XElem) (rest : List Node)
    (h : find_syntax name sig indoc = .ok (sec, rest)) :
    rest = indoc ∨ (sec ≠ none ∧ rest = indoc.drop 1) := by
  cases indoc with
  | nil => simp [ find_syntax] at h
  | cons node r =>
    simp only [ find_syntax] at h
    split at h
    · simp only [Except.ok.injEq, Prod.mk.injEq] at h
      exact Or.inl h.2.symm
    · split at h
      · simp only [Except.ok.injEq, Prod.mk.injEq] at h
        exact Or.inl h.2.symm
      · split at h
        · simp at h
        · simp only [Except.ok.injEq, Prod.mk.injEq] at h
          exact Or.inr ⟨by rw [← h.1]; simp, h.2.symm⟩

theorem find_synopsis_tail (indoc : List Node) (sec : Option XElem)
    (kws : List String) (rest : List Node)
    (h : find_synopsis indoc = .ok (sec, kws, rest)) :
    (sec = none ∧ rest = indoc) ∨ (sec ≠ none ∧ rest = indoc.drop 1) := by
  cases indoc with
  | nil => simp [find_synopsis] at h
  | cons node r =>
    simp only [find_synopsis] at h
    split at h
    · simp only [Except.ok.injEq, Prod.mk.injEq] at h
      exact Or.inl ⟨h.1.symm, h.2.2.symm⟩
    · simp only [Except.ok.injEq, Prod.mk.injEq] at h
      exact Or.inr ⟨by rw [← h.1]; simp, h.2.2.symm⟩

theorem find_desc_tail (indoc : List Node) (sec : Option XElem) (rest : List Node)
    (h : find_desc indoc = .ok (sec, rest)) :
    (sec = none ∧ rest = indoc) ∨
    (sec ≠ none ∧ rest <:+ indoc ∧ rest.length < indoc.length) := by
  simp only [find_desc] at h
  generalize hsw : splitWhile
    (fun x => ¬ (["rubric", "field_list", "container", "seealso"].contains x.tagname) : Node → Bool)
    indoc = pr at h
  split at h
  · simp only [Except.ok.injEq, Prod.mk.injEq] at h
    exact Or.inl ⟨h.1.symm, h.2.symm⟩
  · split at h
    · simp at h
    · simp only [Except.ok.injEq, Prod.mk.injEq] at h
      refine Or.inr ⟨by rw [← h.1]; simp, ?_, ?_⟩
      · rw [← h.2]
        exact hsw ▸ splitWhile_suffix _ indoc
      · rw [← h.2]
        have happ := splitWhile_append
          (fun x => ¬ (["rubric", "field_list", "container", "seealso"].contains x.tagname) : Node → Bool)
          indoc
        rw [hsw] at happ
        have hlen : pr.1.length + pr.2.length = indoc.length := by
          rw [← happ, List.length_append]
        have hne : pr.1 ≠ [] := by
          intro hx
          exact ‹¬ pr.1.isEmpty = true› (by simp [hx])
        have : 0 < pr.1.length := List.length_pos.mpr hne
        omega

theorem find_fieldlist_tail (indoc : List Node) (sec : Option FieldListResult)
    (rest : List Node) (h : find_fieldlist indoc = .ok (sec, rest)) :
    (sec = none ∧ rest = indoc) ∨ (sec ≠ none ∧ rest = indoc.drop 1) := by
  cases indoc with
  | nil =>
    simp only [find_fieldlist, Except.ok.injEq, Prod.mk.injEq] at h
    exact Or.inl ⟨h.1.symm, h.2.symm⟩
  | cons node r =>
    simp only [find_fieldlist] at h
    split at h
    · simp only [Except.ok.injEq, Prod.mk.injEq] at h
      exact Or.inl ⟨h.1.symm, h.2.symm⟩
    · split at h
      · simp at h
      · simp only [Except.ok.injEq, Prod.mk.injEq] at h
        exact Or.inr ⟨by rw [← h.1]; simp, h.2.symm⟩

theorem find_warning_tail (indoc : List Node) (sec : Option XElem)
    (rest : List Node) (h : find_warning indoc = .ok (sec, rest)) :
    (sec = none ∧ rest = indoc) ∨ (sec ≠ none ∧ rest = indoc.drop 1) := by
  cases indoc with
  | nil =>
    simp only [find_warning, Except.ok.injEq, Prod.mk.injEq] at h
    exact Or.inl ⟨h.1.symm, h.2.symm⟩
  | cons node r =>
    simp only [find_warning] at h
    split at h
    · simp only [Except.ok.injEq, Prod.mk.injEq] at h
      exact Or.inl ⟨h.1.symm, h.2.symm⟩
    · split at h
      · split at h
        · simp at h
        · simp only [Except.ok.injEq, Prod.mk.injEq] at h
          exact Or.inr ⟨by rw [← h.1]; simp, h.2.symm⟩
      · simp at h

theorem find_seealso_tail (indoc : List Node) (sec : Option (List String))
    (rest : List Node) (h : find_seealso indoc = .ok (sec, rest)) :
    (sec = none ∧ rest = indoc) ∨ (sec ≠ none ∧ rest = indoc.drop 1) := by
  cases indoc with
  | nil =>
    simp only [find_seealso, Except.ok.injEq, Prod.mk.injEq] at h
    exact Or.inl ⟨h.1.symm, h.2.symm⟩
  | cons node r =>
    simp only [find_seealso] at h
    split at h
    · simp only [Except.ok.injEq, Prod.mk.injEq] at h
      exact Or.inl ⟨h.1.symm, h.2.symm⟩
    · split at h
      · simp at h
      · split at h
        · simp at h
        · simp only [Except.ok.injEq, Prod.mk.injEq] at h
          exact Or.inr ⟨by rw [← h.1]; simp, h.2.symm⟩

theorem find_notes_tail (name : String) (indoc : List Node) (sec : Option XElem)
    (rest : List Node) (h : find_notes name indoc = .ok (sec, rest)) :
    rest = indoc ∨ rest <:+ indoc.drop 1 := by
  cases indoc with
  | nil =>
    simp only [find_notes, Except.ok.injEq, Prod.mk.injEq] at h
    exact Or.inl h.2.symm
  | cons node r =>
    simp only [find_notes] at h
    have hsuf : (splitWhile (fun x => x.tagname != "rubric") r).2 <:+ r :=
      splitWhile_suffix _ r
    split at h
    · simp only [Except.ok.injEq, Prod.mk.injEq] at h
      exact Or.inl h.2.symm
    · split at h
      · simp only [Except.ok.injEq, Prod.mk.injEq] at h
        exact Or.inl h.2.symm
      · split at h
        · simp only [Except.ok.injEq, Prod.mk.injEq] at h
          exact Or.inr (by rw [← h.2]; simpa using hsuf)
        · split at h
          · simp only [Except.ok.injEq, Prod.mk.injEq] at h
            exact Or.inr (by rw [← h.2]; simpa using hsuf)
          · split at h
            · simp at h
            · split at h
              · simp at h
              · simp only [Except.ok.injEq, Prod.mk.injEq] at h
                exact Or.inr (by rw [← h.2]; simpa using hsuf)

theorem find_references_tail (indoc : List Node) (sec : Option XElem)
    (rest : List Node) (h : find_references indoc = .ok (sec, rest)) :
    (sec = none ∧ rest = indoc) ∨ (sec ≠ none ∧ rest <:+ indoc.drop 1) := by
  cases indoc with
  | nil =>
    simp only [find_references, Except.ok.injEq, Prod.mk.injEq] at h
    exact Or.inl ⟨h.1.symm, h.2.symm⟩
  | cons node r =>
    simp only [find_references] at h
    have hsuf : (splitWhile (fun x => x.tagname != "rubric") r).2 <:+ r :=
      splitWhile_suffix _ r
    split at h
    · simp only [Except.ok.injEq, Prod.mk.injEq] at h
      exact Or.inl ⟨h.1.symm, h.2.symm⟩
    · split at h
      · simp only [Except.ok.injEq, Prod.mk.injEq] at h
        exact Or.inl ⟨h.1.symm, h.2.symm⟩
      · split at h
        · simp at h
        · simp only [Except.ok.injEq, Prod.mk.injEq] at h
          refine Or.inr ⟨by rw [← h.1]; simp, by rw [← h.2]; simpa using hsuf⟩

theorem find_examples_tail (indoc : List Node) (sec : Option XElem)
    (rest : List Node) (h : find_examples indoc = .ok (sec, rest)) :
    (sec = none ∧ rest = indoc) ∨ (sec ≠ none ∧ rest <:+ indoc.drop 1) := by
  cases indoc with
  | nil =>
    simp only [find_examples, Except.ok.injEq, Prod.mk.injEq] at h
    exact Or.inl ⟨h.1.symm, h.2.symm⟩
  | cons node r =>
    simp only [find_examples] at h
    have hsuf : (splitWhile (fun x => x.tagname != "rubric") r).2 <:+ r :=
      splitWhile_suffix _ r
    split at h
    · simp only [Except.ok.injEq, Prod.mk.injEq] at h
      exact Or.inl ⟨h.1.symm, h.2.symm⟩
    · split at h
      · simp only [Except.ok.injEq, Prod.mk.injEq] at h
        exact Or.inl ⟨h.1.symm, h.2.symm⟩
      · split at h
        · simp at h
        · simp only [Except.ok.injEq, Prod.mk.injEq] at h
          refine Or.inr ⟨by rw [← h.1]; simp, by rw [← h.2]; simpa using hsuf⟩

/-! ## Claim inputs -/

def exRubric : Node := .elem "rubric" [] [.text "Examples"]

def exCode1 : Node := .elem "doctest_block" [("xml:space", "preserve")] [.text ">>> a = 1"]

def exCode2 : Node := .elem "doctest_block" [("xml:space", "preserve")] [.text ">>> b = 2"]

def exParaLower : Node := .elem "paragraph" [] [.text "and then do more."]

def notesRubricNode : Node := .elem "rubric" [] [.text "Notes"]

def xspecParaNode : Node := .elem "paragraph" []
  [.text "This model is only available when used with XSPEC 12.9.1 or later."]

def synopsisParaNode : Node := .elem "paragraph" [] [.text "A synopsis."]

def warnNode : Node := .elem "warning" [] [.elem "paragraph" [] [.text "Careful."]]

def seealsoDottedNode : Node :=
  .elem "seealso" [] [.elem "paragraph" [] [.elem "literal" [] [.text "numpy.foo"]]]

/-! ## Claim theorems -/

/-- C1: the claim states that, under an Examples rubric, a paragraph whose
first character is lowercase continues the previous example as soon as at
least one example exists, so the run `[code, lowercase-paragraph, code]`
yields one example.  The continuation branch of the code requires
`len(out) > 1`, so this run yields TWO `QEXAMPLE` blocks (the first with
the first code block, the second with the paragraph and the second code
block), contradicting both the claim and the comment above the loop. -/
theorem C1_lowercase_run_gives_two_examples :
    find_examples [exRubric, exCode1, exParaLower, exCode2] =
      .ok (some (elC "QEXAMPLELIST"
        [elC "QEXAMPLE" [elC "DESC" [elT "VERBATIM" ">>> a = 1"]],
         elC "QEXAMPLE" [elC "DESC" [elT "PARA" "and then do more.",
                                     elT "VERBATIM" ">>> b = 2"]]]), []) := rfl

/-- C3 (counterexample): `find_notes` on a Notes section holding only the
XSPEC 12.9.1 boilerplate returns the absent section together with a
CONSUMED tail (the two input nodes are gone), and `find_syntax` with a
derived signature and an unrecognized first node returns a present section
while consuming nothing; both break the claimed
(section, consumed-prefix-tail) / (absent, unmodified-input) dichotomy. -/
theorem C3_counterexample :
    find_notes "apec" [notesRubricNode, xspecParaNode] = .ok (none, []) ∧
    [notesRubricNode, xspecParaNode].length = 2 ∧
    find_syntax "calc_stat" (some "calc_stat()") [notesRubricNode] =
      .ok (some (make_syntax_block ["calc_stat()"]), [notesRubricNode]) := by
  exact ⟨rfl, rfl, rfl⟩

/-- C3 (amended): every extractor returns a remainder that is a suffix of
the input, never a mutated list; an unrecognized front gives the unmodified
input back, and a recognized front is consumed together with the section,
with two exceptions: `find_syntax` may return the signature-derived block
while consuming nothing, and `find_notes` may consume a version-boilerplate
Notes section while returning no section. -/
theorem C3_extractor_tail_discipline :
    (∀ name sig indoc sec rest, find_syntax name sig indoc = .ok (sec, rest) →
        rest = indoc ∨ (sec ≠ none ∧ rest = indoc.drop 1)) ∧
    (∀ indoc sec kws rest, find_synopsis indoc = .ok (sec, kws, rest) →
        (sec = none ∧ rest = indoc) ∨ (sec ≠ none ∧ rest = indoc.drop 1)) ∧
    (∀ indoc sec rest, find_desc indoc = .ok (sec, rest) →
        (sec = none ∧ rest = indoc) ∨
        (sec ≠ none ∧ rest <:+ indoc ∧ rest.length < indoc.length)) ∧
    (∀ indoc sec rest, find_fieldlist indoc = .ok (sec, rest) →
        (sec = none ∧ rest = indoc) ∨ (sec ≠ none ∧ rest = indoc.drop 1)) ∧
    (∀ indoc sec rest, find_warning indoc = .ok (sec, rest) →
        (sec = none ∧ rest = indoc) ∨ (sec ≠ none ∧ rest = indoc.drop 1)) ∧
    (∀ indoc sec rest, find_seealso indoc = .ok (sec, rest) →
        (sec = none ∧ rest = indoc) ∨ (sec ≠ none ∧ rest = indoc.drop 1)) ∧
    (∀ name indoc sec rest, find_notes name indoc = .ok (sec, rest) →
        rest = indoc ∨ rest <:+ indoc.drop 1) ∧
    (∀ indoc sec rest, find_references indoc = .ok (sec, rest) →
        (sec = none ∧ rest = indoc) ∨ (sec ≠ none ∧ rest <:+ indoc.drop 1)) ∧
    (∀ indoc sec rest, find_examples indoc = .ok (sec, rest) →
        (sec = none ∧ rest = indoc) ∨ (sec ≠ none ∧ rest <:+ indoc.drop 1)) :=
  ⟨find_syntax_tail, find_synopsis_tail, find_desc_tail, find_fieldlist_tail,
   find_warning_tail, find_seealso_tail, find_notes_tail, find_references_tail,
   find_examples_tail⟩

/-- C3 (witness): the find_warning conjunct instantiated on a concrete
warning node, whose extraction consumes exactly that node. -/
theorem C3_extractor_tail_discipline_witness :
    find_warning [warnNode] =
      .ok (some (XElem.mk "ADESC" [("title", "Warning")] "" "" [elT "PARA" "Careful."]), []) ∧
    (((some (XElem.mk "ADESC" [("title", "Warning")] "" "" [elT "PARA" "Careful."]) : Option XElem) = none ∧
        ([] : List Node) = [warnNode]) ∨
     ((some (XElem.mk "ADESC" [("title", "Warning")] "" "" [elT "PARA" "Careful."]) : Option XElem) ≠ none ∧
        ([] : List Node) = [warnNode].drop 1)) :=
  ⟨rfl, C3_extractor_tail_discipline.2.2.2.2.1 [warnNode] _ [] rfl⟩

/-- C6 (counterexample): a see-also entry `numpy.foo` makes `find_seealso`
call `sys.exit(1)`; the resulting `SystemExit` is not an `Exception`, so
the batch-loop handler does not catch it and the whole batch aborts,
contradicting the claim that the batch never terminates because of a single
symbol. -/
theorem C6_counterexample :
    convert_docutils "calc_stat" [synopsisParaNode, seealsoDottedNode]
        none .pyNone none none "ahelp" = .error (.exit 1) ∧
    processOne "calc_stat" [synopsisParaNode, seealsoDottedNode]
        none .pyNone none none "ahelp" = .batchAbort :=
  ⟨rfl, rfl⟩

/-- C6 (amended): a conversion failure raised as an ordinary exception IS
caught at the batch-loop boundary and recorded in the error list, the loop
continuing; only the `sys.exit(1)` path of `find_seealso` (SystemExit) and
failures after the guarded region escape and abort the batch. -/
theorem C6_ordinary_exception_recorded (name : String) (doc : List Node)
    (sig : Option String) (symbol : SymbolInfo) (md : Option Metadata)
    (syns : Option (List String)) (dtd : String) (msg : String)
    (h : convert_docutils name doc sig symbol md syns dtd = .error (.exc msg)) :
    processOne name doc sig symbol md syns dtd = .recordedError := by
  unfold processOne
  rw [h]

/-- C6 (witness): the empty-document IndexError is recorded, not fatal to
the batch. -/
theorem C6_ordinary_exception_recorded_witness :
    processOne "apec" [] none .pyNone none none "ahelp" = .recordedError :=
  C6_ordinary_exception_recorded "apec" [] none .pyNone none none "ahelp"
    "IndexError: list index out of range" rfl

/-- C7 (counterexample): a first paragraph that begins with `foo(` but does
not end with `)` does NOT fall back to the signature-derived block with the
input unchanged; the endswith-close-paren assert fires and the extractor
raises AssertionError. -/
theorem C7_counterexample :
    find_syntax "foo" (some "foo(x, y)") [.elem "paragraph" [] [.text "foo(x"]] =
      .error (.exc "AssertionError: foo(x") := rfl

/-- C7 (amended): `find_syntax` consumes the first node exactly when it is
a paragraph whose stripped text begins with `name(` and ends with `)`,
overriding the derived signature; a non-paragraph or non-matching first
node consumes nothing and yields the signature-derived block (or absent);
a first paragraph that begins with `name(` but does not end with `)` raises
AssertionError. -/
theorem C7_syntax_override :
    ∀ (name : String) (sig : Option String) (node : Node) (rest : List Node),
      ((is_para node = false ∨ pyStarts (pyStrip node.rawtext) (name ++ "(") = false) →
        find_syntax name sig (node :: rest) =
          .ok (sig.map (fun s => make_syntax_block [s]), node :: rest)) ∧
      (is_para node = true → pyStarts (pyStrip node.rawtext) (name ++ "(") = true →
        pyEnds (pyStrip node.rawtext) ")" = true →
        find_syntax name sig (node :: rest) =
          .ok (some (make_syntax_block [pyStrip node.rawtext]), rest)) ∧
      (is_para node = true → pyStarts (pyStrip node.rawtext) (name ++ "(") = true →
        pyEnds (pyStrip node.rawtext) ")" = false →
        find_syntax name sig (node :: rest) =
          .error (.exc ("AssertionError: " ++ pyStrip node.rawtext))) := by
  intro name sig node rest
  refine ⟨?_, ?_, ?_⟩
  · rintro (h | h)
    · simp [ find_syntax, h]
    · by_cases hp : is_para node <;> simp [ find_syntax, hp, h]
  · intro h1 h2 h3
    simp [ find_syntax, h1, h2, h3]
  · intro h1 h2 h3
    simp [ find_syntax, h1, h2, h3]

/-- C7 (witness): the override case on a concrete matching paragraph. -/
theorem C7_syntax_override_witness :
    find_syntax "foo" (some "foo(x)") [.elem "paragraph" [] [.text "foo(x, y)"]] =
      .ok (some (make_syntax_block ["foo(x, y)"]), []) :=
  (C7_syntax_override "foo" (some "foo(x)")
    (.elem "paragraph" [] [.text "foo(x, y)"]) []).2.1 rfl rfl rfl

/-- C8: flattening a footnote whose body is exactly a paragraph or an
enumerated list yields `[label] body` with the flattened body appearing
exactly once; any other body node type raises the ValueError naming the
offending tag (the UnsupportedStructure failure class) instead of
returning a string. -/
theorem C8_footnote_flatten :
    ∀ (fattrs lattrs : List (String × String)) (lab : List Node) (body : Node)
      (extra : List Node) (btxt : String),
      ((body.tagname = "paragraph" ∨ body.tagname = "enumerated_list") →
        astext body = .ok btxt →
        astext (.elem "footnote" fattrs (.elem "label" lattrs lab :: body :: extra)) =
          .ok ("[" ++ rawtextList lab ++ "]" ++ " " ++ btxt)) ∧
      (body.tagname ≠ "paragraph" → body.tagname ≠ "enumerated_list" →
        astext (.elem "footnote" fattrs (.elem "label" lattrs lab :: body :: extra)) =
          .error (.exc ("Unexpected node " ++ body.tagname))) := by
  intro fattrs lattrs lab body extra btxt
  constructor
  · rintro (h | h) hb
    · cases body with
      | text s => simp [Node.tagname] at h
      | elem t a c =>
        simp only [Node.tagname] at h
        subst h
        simp [astext, hb, Node.tagname, Node.rawtext]
    · cases body with
      | text s => simp [Node.tagname] at h
      | elem t a c =>
        simp only [Node.tagname] at h
        subst h
        simp [astext, hb, Node.tagname, Node.rawtext]
  · intro h1 h2
    cases body with
    | text s =>
      simp [astext, Node.tagname]
    | elem t a c =>
      simp only [Node.tagname] at h1 h2
      simp [astext, Node.tagname, h1, h2]

/-- C8 (witness): a concrete footnote with a paragraph body flattens to the
bracketed label followed by the body text; the same footnote with a
bullet_list body fails. -/
theorem C8_footnote_flatten_witness :
    astext (.elem "footnote" [] [.elem "label" [] [.text "2"],
        .elem "paragraph" [] [.text "Some reference"]]) = .ok "[2] Some reference" ∧
    astext (.elem "footnote" [] [.elem "label" [] [.text "2"],
        .elem "bullet_list" [] []]) = .error (.exc "Unexpected node bullet_list") :=
  ⟨(C8_footnote_flatten [] [] [.text "2"]
      (.elem "paragraph" [] [.text "Some reference"]) [] "Some reference").1
      (Or.inl rfl) rfl,
   (C8_footnote_flatten [] [] [.text "2"]
      (.elem "bullet_list" [] []) [] "").2 (by decide) (by decide)⟩

/-- C10: `find_syntax` and `find_synopsis` index the first element
unconditionally, so on the empty document they raise IndexError and
`convert_docutils` on a document with no top-level children fails with that
error; every later extractor returns (absent, unchanged empty list) on the
empty input. -/
theorem C10_empty_document :
    (∀ name sig, find_syntax name sig [] =
        .error (.exc "IndexError: list index out of range")) ∧
    find_synopsis [] = .error (.exc "IndexError: list index out of range") ∧
    (∀ name sig symbol md syns dtd, (dtd = "ahelp" ∨ dtd = "sxml") →
        syns ≠ some [] →
        convert_docutils name [] sig symbol md syns dtd =
          .error (.exc "IndexError: list index out of range")) ∧
    find_fieldlist [] = .ok (none, []) ∧
    find_warning [] = .ok (none, []) ∧
    find_seealso [] = .ok (none, []) ∧
    (∀ name, find_notes name [] = .ok (none, [])) ∧
    find_references [] = .ok (none, []) ∧
    find_examples [] = .ok (none, []) := by
  refine ⟨fun name sig => rfl, rfl, ?_, rfl, rfl, rfl, fun name => rfl, rfl, rfl⟩
  intro name sig symbol md syns dtd hdtd hsyn
  unfold convert_docutils
  rw [if_neg (not_not_intro hdtd), if_neg hsyn]
  rfl

/-- C10 (witness): the convert conjunct instantiated on the ahelp DTD with
no synonyms. -/
theorem C10_empty_document_witness :
    convert_docutils "apec" [] none .pyNone none none "ahelp" =
      .error (.exc "IndexError: list index out of range") :=
  C10_empty_document.2.2.1 "apec" none .pyNone none none "ahelp"
    (Or.inl rfl) (by simp)

def methodsRubricNode : Node := .elem "rubric" [] [.text "Methods"]

def bananaAppleParaNode : Node := .elem "paragraph" [] [.text "banana apple."]

def groupSynopsisNode : Node := .elem "paragraph" [] [.text "Groups the data."]

/-- External record whose source ahelp file carries no context attribute
(`find_metadata` cleans the missing attribute to the empty string). -/
def emptyContextRecord : Metadata :=
  { key := "apec", refkeywords := "", seealsogroups := "", displayseealsogroups := "",
    context := "" }

def loadDataRecord : Metadata :=
  { key := "load_data", refkeywords := "zebra apple", seealsogroups := "x",
    displayseealsogroups := "y", context := "data" }

/-- Read an ENTRY attribute out of a conversion result, when that result is
a document. -/
def producedAttr (r : Except PyErr ConvResult) (k : String) : Option String :=
  match r with
  | .ok (.doc d) => entryAttr d k
  | _ => none

/-- The pipeline output for the two-node trailing-content document. -/
def trailingPo : PipelineOut :=
  { syntaxBlock := none, synopsis := some (XElem.mk "SYNOPSIS" [] "A synopsis." "" []),
    refkeywords := ["a", "synopsis"], desc := none, params := none, warnings := none,
    seealso := none, notes := none, notes2 := none, refs := none, examples := none,
    remainder := [methodsRubricNode] }

/-- The assembled document for `calc_stat` with a one-paragraph docstring
and no metadata. -/
def calcStatDoc : XElem :=
  XElem.mk "cxchelptopics" [] "" ""
    [XElem.mk "ENTRY"
      [("pkg", "sherpa"), ("key", "calc_stat"), ("refkeywords", "a synopsis"),
       ("seealsogroups", ""), ("displayseealsogroups", ""), ("context", "sherpaish")] "" ""
      [elT "SYNOPSIS" "A synopsis.", bugsBlock, elT "LASTMODIFIED" "December 2020"]]

/-- The assembled document for `group` with a one-paragraph docstring and
no metadata. -/
def groupDoc : XElem :=
  XElem.mk "cxchelptopics" [] "" ""
    [XElem.mk "ENTRY"
      [("pkg", "sherpa"), ("key", "group"), ("refkeywords", "data groups the"),
       ("seealsogroups", ""), ("displayseealsogroups", ""), ("context", "data")] "" ""
      [elT "SYNOPSIS" "Groups the data.", bugsBlock, elT "LASTMODIFIED" "December 2020"]]

/-- The pipeline output for the `load_data` one-paragraph docstring. -/
def loadDataPo : PipelineOut :=
  { syntaxBlock := none, synopsis := some (XElem.mk "SYNOPSIS" [] "banana apple." "" []),
    refkeywords := ["apple", "banana"], desc := none, params := none, warnings := none,
    seealso := none, notes := none, notes2 := none, refs := none, examples := none,
    remainder := [] }

/-- The assembled document for `load_data` with the external record merged
in. -/
def loadDataDoc : XElem :=
  XElem.mk "cxchelptopics" [] "" ""
    [XElem.mk "ENTRY"
      [("pkg", "sherpa"), ("key", "load_data"), ("refkeywords", "apple banana zebra"),
       ("seealsogroups", ""), ("displayseealsogroups", ""), ("context", "data")] "" ""
      [elT "SYNOPSIS" "banana apple.", bugsBlock, elT "LASTMODIFIED" "December 2020"]]

/-- C2: when nodes remain after all extraction, `convert_docutils` does not
produce a document for the symbol: it logs the remainder and returns the
leftover node list itself, and downstream the save step (outside the batch
loop exception guard) fails on that non-document value, so the symbol is
never silently written out. -/
theorem C2_trailing_content_fatal (name : String) (doc : List Node) (sig : Option String)
    (symbol : SymbolInfo) (md : Option Metadata) (syns : Option (List String))
    (dtd : String) (po : PipelineOut)
    (hdtd : dtd = "ahelp" ∨ dtd = "sxml") (hsyn : syns ≠ some [])
    (hrun : runPipeline name sig symbol syns doc = .ok po)
    (hne : po.remainder ≠ []) :
    convert_docutils name doc sig symbol md syns dtd = .ok (.trailing po.remainder) ∧
    processOne name doc sig symbol md syns dtd = .batchAbort := by
  have hconv : convert_docutils name doc sig symbol md syns dtd =
      .ok (.trailing po.remainder) := by
    unfold convert_docutils
    rw [if_neg (not_not_intro hdtd), if_neg hsyn, hrun]
    exact if_pos (by simpa using hne)
  refine ⟨hconv, ?_⟩
  unfold processOne
  rw [hconv]
  rfl

/-- C2 (witness): a docstring ending in an unrecognized `Methods` rubric is
returned as trailing content and the symbol aborts instead of being
written. -/
theorem C2_trailing_content_fatal_witness :
    convert_docutils "calc_stat" [synopsisParaNode, methodsRubricNode]
        none .pyNone none none "ahelp" = .ok (.trailing [methodsRubricNode]) ∧
    processOne "calc_stat" [synopsisParaNode, methodsRubricNode]
        none .pyNone none none "ahelp" = .batchAbort :=
  C2_trailing_content_fatal "calc_stat" [synopsisParaNode, methodsRubricNode]
    none .pyNone none none "ahelp" trailingPo (Or.inl rfl) (by simp) rfl
    (by simp [trailingPo])

/-- C4 (counterexample): an external metadata record whose context is the
empty string (an ahelp file without a context attribute) survives into the
final document: the `is None` fallback test does not fire on the empty
string, so the ENTRY context attribute of the produced document is empty,
refuting the claim that it is always non-empty. -/
theorem C4_counterexample :
    producedAttr (convert_docutils "apec" [synopsisParaNode] none .pyNone
        (some emptyContextRecord) none "ahelp") "context" = some "" := rfl

set_option maxHeartbeats 1600000 in
theorem find_context_ne_empty (name : String) (symbol : SymbolInfo) :
    find_context name symbol ≠ "" := by
  unfold find_context
  cases symbol
  · repeat' split
    all_goals decide
  · exact (by decide : ("models" : String) ≠ "")
  · repeat' split
    all_goals decide

/-- C4 (amended): the ENTRY context attribute equals the external record
context whenever a record is present - even when that value is the empty
string, in which case the final context is empty; only with no record at
all is the computed `find_context` fallback substituted, and that fallback
is never empty (it bottoms out at the `sherpaish` sentinel). -/
theorem C4_context_resolution (name : String) (doc : List Node) (sig : Option String)
    (symbol : SymbolInfo) (md : Option Metadata) (syns : Option (List String))
    (dtd : String) (d : XElem)
    (hconv : convert_docutils name doc sig symbol md syns dtd = .ok (.doc d)) :
    entryAttr d "context" = some (finalContext name symbol md) ∧
    (md = none → entryAttr d "context" = some (find_context name symbol) ∧
      find_context name symbol ≠ "") := by
  obtain ⟨po, hrp, hrem, hbuild⟩ := convert_docutils_doc_inv _ _ _ _ _ _ _ _ hconv
  have hattrs := buildDoc_doc_attrs _ _ _ _ _ _ _ hbuild
  refine ⟨hattrs.2.2.1, ?_⟩
  rintro rfl
  exact ⟨hattrs.2.2.1, find_context_ne_empty name symbol⟩

set_option maxHeartbeats 1600000 in
/-- C4 (witness): with no external record the `calc_stat` document falls
back to the non-empty sentinel context `sherpaish`. -/
theorem C4_context_resolution_witness :
    entryAttr calcStatDoc "context" = some "sherpaish" ∧
    find_context "calc_stat" .pyNone ≠ "" := by
  have h := C4_context_resolution "calc_stat" [synopsisParaNode] none .pyNone none none
    "ahelp" calcStatDoc rfl
  exact ⟨h.1, (h.2 rfl).2⟩

/-- C5 (counterexample): a synonym list is prepended verbatim to the merged
refkeywords, so a synonym equal to an existing token yields a duplicated
token list, refuting the claim that the attribute is always a deduplicated
sorted union for every synonym combination. -/
theorem C5_counterexample :
    producedAttr (convert_docutils "load_data" [bananaAppleParaNode] none .pyNone
        none (some ["apple"]) "ahelp") "refkeywords" = some "apple apple banana" ∧
    pySplit "apple apple banana" = ["apple", "apple", "banana"] ∧
    ¬ (["apple", "apple", "banana"] : List String).Nodup :=
  ⟨rfl, rfl, by decide⟩

/-- C5 (amended): the refkeywords attribute is the space-join of the merged
token list (synopsis tokens unioned with the external record tokens,
deduplicated and sorted) with any synonyms prepended verbatim in front;
for every present/absent record combination the merged token list itself is
sorted and duplicate-free, but the prepended synonyms are not folded into
that discipline. -/
theorem C5_refkeywords_merge (name : String) (doc : List Node) (sig : Option String)
    (symbol : SymbolInfo) (md : Option Metadata) (syns : Option (List String))
    (dtd : String) (po : PipelineOut) (d : XElem)
    (hrun : runPipeline name sig symbol syns doc = .ok po)
    (hconv : convert_docutils name doc sig symbol md syns dtd = .ok (.doc d)) :
    entryAttr d "refkeywords" = some (finalRefkeywords po.refkeywords md syns) ∧
    List.Sorted pyLe (mergedTokens po.refkeywords md) ∧
    (mergedTokens po.refkeywords md).Nodup := by
  obtain ⟨po2, hrp2, hrem, hbuild⟩ := convert_docutils_doc_inv _ _ _ _ _ _ _ _ hconv
  rw [hrun] at hrp2
  obtain rfl : po = po2 := Except.ok.inj hrp2
  have hattrs := buildDoc_doc_attrs _ _ _ _ _ _ _ hbuild
  refine ⟨hattrs.2.1, ?_, ?_⟩
  · cases md with
    | none =>
      simpa [mergedTokens] using (runPipeline_refkeywords _ _ _ _ _ _ hrun).1
    | some m => exact pySorted_sorted _
  · cases md with
    | none =>
      simpa [mergedTokens] using (runPipeline_refkeywords _ _ _ _ _ _ hrun).2
    | some m => exact pySorted_dedup_nodup _

/-- C5 (witness): the `load_data` run with an external record and no
synonyms produces the sorted deduplicated union `apple banana zebra`. -/
theorem C5_refkeywords_merge_witness :
    entryAttr loadDataDoc "refkeywords" = some "apple banana zebra" ∧
    List.Sorted pyLe (mergedTokens ["apple", "banana"] (some loadDataRecord)) ∧
    (mergedTokens ["apple", "banana"] (some loadDataRecord)).Nodup := by
  have h := C5_refkeywords_merge "load_data" [bananaAppleParaNode] none .pyNone
    (some loadDataRecord) none "ahelp" loadDataPo loadDataDoc rfl rfl
  exact ⟨h.1, h.2.1, h.2.2⟩

/-- C9: the reserved symbol name `group` is written to the file
`group_sherpa.xml` under the ahelp schema while the ENTRY key attribute of
the generated document remains `group` (the external record for group also
carries key `group`). -/
theorem C9_group_filename_and_key :
    outName "group" "ahelp" = "group_sherpa.xml" ∧
    ∀ (doc : List Node) (sig : Option String) (symbol : SymbolInfo)
      (md : Option Metadata) (syns : Option (List String)) (d : XElem),
      (∀ m, md = some m → m.key = "group") →
      convert_docutils "group" doc sig symbol md syns "ahelp" = .ok (.doc d) →
      entryAttr d "key" = some "group" ∧
      processOne "group" doc sig symbol md syns "ahelp" = .written "group_sherpa.xml" d := by
  refine ⟨rfl, ?_⟩
  intro doc sig symbol md syns d hkey hconv
  obtain ⟨po, hrp, hrem, hbuild⟩ := convert_docutils_doc_inv _ _ _ _ _ _ _ _ hconv
  have hattrs := buildDoc_doc_attrs _ _ _ _ _ _ _ hbuild
  have htag : d.tag = "cxchelptopics" := hattrs.2.2.2
  constructor
  · rw [hattrs.1]
    cases md with
    | none => rfl
    | some m => simp [finalKey, hkey m rfl]
  · unfold processOne
    rw [hconv]
    simp [save_doc_check, htag, outName]

/-- C9 (witness): the `group` conversion with no record keeps key `group`
and is written to `group_sherpa.xml`. -/
theorem C9_group_filename_and_key_witness :
    entryAttr groupDoc "key" = some "group" ∧
    processOne "group" [groupSynopsisNode] none .pyNone none none "ahelp" =
      .written "group_sherpa.xml" groupDoc := by
  have h := C9_group_filename_and_key.2 [groupSynopsisNode] none .pyNone none none
    groupDoc (fun m hm => Option.noConfusion hm) rfl
  exact ⟨h.1, h.2⟩
